import Mathlib

set_option linter.unusedVariables false

/-!
Shallow embedding of `src/rcl_executor/src/let_executor.c` (the LET executor of
the `rcl_executor` package) and proofs about its scheduling behaviour.

The executor state (`rcle_let_executor_t`, `rcle_handle_t`) is embedded as Lean
structures; the handle array is a total function `Nat → rcle_handle_t` (the C
code always indexes it inside the bound checked by the surrounding loop or by
the explicit `index >= max_handles` test).  All external collaborators
(`rcl_wait`, `rcl_take`, `rcl_timer_is_ready`, `rcl_timer_call`, wait-set
construction and registration) are modelled by an oracle `Env` that fixes the
outcome of each external call of one scheduling round, keyed by the handle's
position in the table.  Fallible operations return their `rcl_ret_t` code
explicitly, and the scheduling functions additionally return the trace of
handle positions visited and callbacks invoked, which is what the theorems
below talk about.
-/

/-- Return code type of rcl (`rcl_ret_t`); values as in rcl/types.h. -/
abbrev rcl_ret_t := Nat

def RCL_RET_OK : rcl_ret_t := 0
def RCL_RET_ERROR : rcl_ret_t := 1
def RCL_RET_TIMEOUT : rcl_ret_t := 2
def RCL_RET_BAD_ALLOC : rcl_ret_t := 10
def RCL_RET_INVALID_ARGUMENT : rcl_ret_t := 11
def RCL_RET_WAIT_SET_INVALID : rcl_ret_t := 60
def RCL_RET_WAIT_SET_FULL : rcl_ret_t := 61
def RCL_RET_SUBSCRIPTION_TAKE_FAILED : rcl_ret_t := 401

/-- Default timeout for rcl_wait, `DEFAULT_WAIT_TIMEOUT_MS` in the source. -/
def DEFAULT_WAIT_TIMEOUT_MS : Nat := 100000000

/-- Modelled from the spec: the handle kind variant of `rcle_handle_t`
(`rcl_executor`'s handle header is not under src/; the kinds SUBSCRIPTION and
TIMER are the ones the core logic exercises, NONE is the zero-initialized
kind of an unused slot). -/
inductive rcle_handle_type_t where
  | NONE
  | SUBSCRIPTION
  | TIMER
deriving DecidableEq, Repr

/-- Invocation policy variant (`rcle_invocation_t`). -/
inductive rcle_invocation_t where
  | ON_NEW_DATA
  | ALWAYS
deriving DecidableEq, Repr

/-- Modelled from the spec: one entry of the handle table (`rcle_handle_t`,
whose header is not under src/).  External references (subscription, timer,
message buffer, callback function) are opaque and modelled as numeric ids. -/
@[ext]
structure rcle_handle_t where
  type : rcle_handle_type_t
  subscription : Nat
  timer : Nat
  /-- message buffer (`void * data`) -/
  data : Nat
  /-- callback function pointer -/
  callback : Nat
  invocation : rcle_invocation_t
  /-- slot of this handle inside the current wait set (`size_t index`) -/
  index : Nat
  /-- true when this slot holds a registered source -/
  initialized : Bool
  /-- transient per-round readiness flag -/
  data_available : Bool
deriving DecidableEq, Repr

/-- Modelled from the spec: `rcle_handle_init` of the handle header resets a
slot to the unused state. -/
def rcle_handle_init : rcle_handle_t :=
  { type := .NONE, subscription := 0, timer := 0, data := 0, callback := 0,
    invocation := .ON_NEW_DATA, index := 0, initialized := false,
    data_available := false }

/-- Modelled from the spec: per-kind tallies (`rcle_handle_size_t`). -/
@[ext]
structure rcle_handle_size_t where
  number_of_subscriptions : Nat
  number_of_guard_conditions : Nat
  number_of_timers : Nat
  number_of_clients : Nat
  number_of_services : Nat
  number_of_events : Nat
deriving DecidableEq, Repr

/-- Modelled from the spec: `rcle_handle_size_zero_init` resets all tallies. -/
def rcle_handle_size_zero_init : rcle_handle_size_t :=
  { number_of_subscriptions := 0, number_of_guard_conditions := 0,
    number_of_timers := 0, number_of_clients := 0, number_of_services := 0,
    number_of_events := 0 }

/-- Modelled from the spec: the Readiness Provider resource (`rcl_wait_set_t`).
`valid` is what `rcl_wait_set_is_valid` observes; `size_*` are the capacities
chosen at construction; `sub_count`/`timer_count` are the next free
registration slot per kind; `subscriptions`/`timers` are the per-slot
readiness flags published by the last wait. -/
@[ext]
structure rcl_wait_set_t where
  valid : Bool
  size_subscriptions : Nat
  size_timers : Nat
  sub_count : Nat
  timer_count : Nat
  subscriptions : List Bool
  timers : List Bool
deriving DecidableEq, Repr

def rcl_get_zero_initialized_wait_set : rcl_wait_set_t :=
  { valid := false, size_subscriptions := 0, size_timers := 0,
    sub_count := 0, timer_count := 0, subscriptions := [], timers := [] }

def rcl_wait_set_is_valid (ws : rcl_wait_set_t) : Bool := ws.valid

/-- Modelled from the spec: destroying the resource always leaves it absent;
finalizing a zero-initialized wait set is allowed and returns success. -/
def rcl_wait_set_fini (ws : rcl_wait_set_t) : rcl_ret_t × rcl_wait_set_t :=
  (RCL_RET_OK, rcl_get_zero_initialized_wait_set)

/-- Oracle fixing the outcome of every external call of one scheduling round.
Per-call outcomes are keyed by the position of the involved handle in the
handle table. -/
structure Env where
  /-- outcome of `rcl_wait_set_init` -/
  wait_set_init_ret : rcl_ret_t
  /-- outcome of `rcl_wait_set_add_subscription` for handle i -/
  add_sub_ret : Nat → rcl_ret_t
  /-- outcome of `rcl_wait_set_add_timer` for handle i -/
  add_timer_ret : Nat → rcl_ret_t
  /-- outcome of `rcl_wait` -/
  wait_ret : rcl_ret_t
  /-- readiness flags published for subscription slots by the wait -/
  sub_ready : List Bool
  /-- readiness flags published for timer slots by the wait -/
  timer_ready : List Bool
  /-- outcome of `rcl_take` for handle i -/
  take_ret : Nat → rcl_ret_t
  /-- outcome code of `rcl_timer_is_ready` for handle i -/
  timer_ready_ret : Nat → rcl_ret_t
  /-- answer of `rcl_timer_is_ready` for handle i (when it succeeds) -/
  timer_ready_val : Nat → Bool
  /-- outcome of `rcl_timer_call` for handle i -/
  timer_call_ret : Nat → rcl_ret_t
  /-- system time observed when `invocation_time` is first latched -/
  latch_time : Int
  /-- system time observed after the round, before the period sleep -/
  end_time : Int

/-- Modelled from the spec: Readiness Provider construction
(`rcl_wait_set_init`), sized by the per-kind tallies.  On failure the
resource is cleaned up and stays absent. -/
def rcl_wait_set_init (env : Env) (info : rcle_handle_size_t) :
    rcl_ret_t × rcl_wait_set_t :=
  if env.wait_set_init_ret ≠ RCL_RET_OK then
    (env.wait_set_init_ret, rcl_get_zero_initialized_wait_set)
  else
    (RCL_RET_OK,
      { valid := true,
        size_subscriptions := info.number_of_subscriptions,
        size_timers := info.number_of_timers,
        sub_count := 0, timer_count := 0, subscriptions := [], timers := [] })

/-- Modelled from the spec: `rcl_wait_set_clear` resets the per-slot state of
a valid resource; on an absent resource it fails. -/
def rcl_wait_set_clear (ws : rcl_wait_set_t) : rcl_ret_t × rcl_wait_set_t :=
  if ¬ ws.valid then (RCL_RET_WAIT_SET_INVALID, ws)
  else (RCL_RET_OK,
    { ws with sub_count := 0, timer_count := 0, subscriptions := [], timers := [] })

/-- Modelled from the spec: Readiness Provider registration of a subscription
(`rcl_wait_set_add_subscription`): yields the assigned slot index or an error;
`env` may inject a provider-reported failure for handle i, in which case
nothing is registered. -/
def rcl_wait_set_add_subscription (env : Env) (i : Nat) (ws : rcl_wait_set_t) :
    rcl_ret_t × Nat × rcl_wait_set_t :=
  if env.add_sub_ret i ≠ RCL_RET_OK then (env.add_sub_ret i, 0, ws)
  else if ¬ ws.valid then (RCL_RET_WAIT_SET_INVALID, 0, ws)
  else if ws.size_subscriptions ≤ ws.sub_count then (RCL_RET_WAIT_SET_FULL, 0, ws)
  else (RCL_RET_OK, ws.sub_count, { ws with sub_count := ws.sub_count + 1 })

/-- Modelled from the spec: Readiness Provider registration of a timer
(`rcl_wait_set_add_timer`). -/
def rcl_wait_set_add_timer (env : Env) (i : Nat) (ws : rcl_wait_set_t) :
    rcl_ret_t × Nat × rcl_wait_set_t :=
  if env.add_timer_ret i ≠ RCL_RET_OK then (env.add_timer_ret i, 0, ws)
  else if ¬ ws.valid then (RCL_RET_WAIT_SET_INVALID, 0, ws)
  else if ws.size_timers ≤ ws.timer_count then (RCL_RET_WAIT_SET_FULL, 0, ws)
  else (RCL_RET_OK, ws.timer_count, { ws with timer_count := ws.timer_count + 1 })

/-- Modelled from the spec: the bounded readiness wait (`rcl_wait`).  It
returns the oracle's outcome (success, timeout, or a fatal error) and
publishes the oracle's per-slot readiness flags. -/
def rcl_wait (env : Env) (ws : rcl_wait_set_t) (timeout_ns : Nat) :
    rcl_ret_t × rcl_wait_set_t :=
  if ¬ ws.valid then (RCL_RET_WAIT_SET_INVALID, ws)
  else (env.wait_ret,
    { ws with subscriptions := env.sub_ready, timers := env.timer_ready })

/-- The executor state (`rcle_let_executor_t`).  The context and allocator
pointers are not represented (they are never dereferenced by the modelled
logic); the handle array is a total function read only at positions the C
code reads. -/
@[ext]
structure rcle_let_executor_t where
  handles : Nat → rcle_handle_t
  max_handles : Nat
  index : Nat
  wait_set : rcl_wait_set_t
  info : rcle_handle_size_t
  timeout_ns : Nat
  invocation_time : Int

/-- Pointwise update of the handle array. -/
def updFn (f : Nat → rcle_handle_t) (i : Nat) (v : rcle_handle_t) :
    Nat → rcle_handle_t :=
  fun j => if j = i then v else f j

/-- `rcle_let_executor_get_zero_initialized_executor`. -/
def rcle_let_executor_get_zero_initialized_executor : rcle_let_executor_t :=
  { handles := fun _ => rcle_handle_init, max_handles := 0, index := 0,
    wait_set := rcl_get_zero_initialized_wait_set,
    info := rcle_handle_size_zero_init, timeout_ns := 0, invocation_time := 0 }

/-- `rcle_let_executor_init` (success path of the allocator; `n = 0` is
rejected with `RCL_RET_INVALID_ARGUMENT` before any mutation). -/
def rcle_let_executor_init (e : rcle_let_executor_t) (number_of_handles : Nat) :
    rcl_ret_t × rcle_let_executor_t :=
  if number_of_handles = 0 then (RCL_RET_INVALID_ARGUMENT, e)
  else
    (RCL_RET_OK,
      { e with
        max_handles := number_of_handles,
        index := 0,
        wait_set := rcl_get_zero_initialized_wait_set,
        timeout_ns := DEFAULT_WAIT_TIMEOUT_MS,
        handles := fun _ => rcle_handle_init,
        info := rcle_handle_size_zero_init })

/-- `_rcle_let_executor_is_valid`; the null-pointer checks on `handles` and
`allocator` are not representable here, the observable check is
`max_handles == 0`. -/
def _rcle_let_executor_is_valid (e : rcle_let_executor_t) : Bool :=
  e.max_handles ≠ 0

/-- `rcle_let_executor_set_timeout`. -/
def rcle_let_executor_set_timeout (e : rcle_let_executor_t) (timeout_ns : Nat) :
    rcl_ret_t × rcle_let_executor_t :=
  if _rcle_let_executor_is_valid e then (RCL_RET_OK, { e with timeout_ns := timeout_ns })
  else (RCL_RET_ERROR, e)

/-- `rcle_let_executor_add_subscription`.  The C null-pointer checks on the
subscription, message and callback arguments are modelled by `Option`
arguments; they happen before the capacity check, exactly as in the source. -/
def rcle_let_executor_add_subscription (e : rcle_let_executor_t)
    (subscription : Option Nat) (msg : Option Nat) (callback : Option Nat)
    (invocation : rcle_invocation_t) : rcl_ret_t × rcle_let_executor_t :=
  match subscription, msg, callback with
  | some s, some m, some cb =>
    -- array bound check
    if e.max_handles ≤ e.index then (RCL_RET_ERROR, e)
    else
      -- assign data fields
      let h := { e.handles e.index with
        type := .SUBSCRIPTION, subscription := s, data := m, callback := cb,
        invocation := invocation, initialized := true }
      let e1 := { e with handles := updFn e.handles e.index h, index := e.index + 1 }
      -- invalidate wait_set so that the next spin_some() rebuilds it
      let e2 :=
        if rcl_wait_set_is_valid e1.wait_set then
          { e1 with wait_set := (rcl_wait_set_fini e1.wait_set).2 }
        else e1
      (RCL_RET_OK,
        { e2 with info := { e2.info with
            number_of_subscriptions := e2.info.number_of_subscriptions + 1 } })
  | _, _, _ => (RCL_RET_INVALID_ARGUMENT, e)

/-- `rcle_let_executor_add_timer`; note it takes no invocation-policy
argument and always stores `ON_NEW_DATA`. -/
def rcle_let_executor_add_timer (e : rcle_let_executor_t)
    (timer : Option Nat) : rcl_ret_t × rcle_let_executor_t :=
  match timer with
  | some t =>
    -- array bound check
    if e.max_handles ≤ e.index then (RCL_RET_ERROR, e)
    else
      -- assign data fields; invocation is ON_NEW_DATA, i.e. when timer elapsed
      let h := { e.handles e.index with
        type := .TIMER, timer := t, invocation := .ON_NEW_DATA, initialized := true }
      let e1 := { e with handles := updFn e.handles e.index h, index := e.index + 1 }
      -- invalidate wait_set so that the next spin_some() rebuilds it
      let e2 :=
        if rcl_wait_set_is_valid e1.wait_set then
          { e1 with wait_set := (rcl_wait_set_fini e1.wait_set).2 }
        else e1
      (RCL_RET_OK,
        { e2 with info := { e2.info with
            number_of_timers := e2.info.number_of_timers + 1 } })
  | _ => (RCL_RET_INVALID_ARGUMENT, e)

/-- One observable callback invocation of phase 2. -/
inductive Event where
  /-- the subscription callback of handle i was called with its data buffer -/
  | subCallback (i : Nat) (callback : Nat) (data : Nat)
  /-- `rcl_timer_call` was invoked for the timer of handle i -/
  | timerCall (i : Nat) (timer : Nat)
deriving DecidableEq, Repr

/-- Handle position an event belongs to. -/
def eventIndex : Event → Nat
  | .subCallback i _ _ => i
  | .timerCall i _ => i

/-- Net effect of `_rcle_read_input_data` on handle `h` at position `i`:
the returned code and the final `data_available` flag (the C code first
resets the flag to false, then sets it true only on the success paths). -/
def intakeResult (env : Env) (ws : rcl_wait_set_t) (h : rcle_handle_t)
    (i : Nat) : rcl_ret_t × Bool :=
  match h.type with
  | .SUBSCRIPTION =>
    -- if handle is available, call rcl_take
    if ws.subscriptions.getD h.index false then
      let rc := env.take_ret i
      if rc ≠ RCL_RET_OK then (rc, false)
      else (RCL_RET_OK, true)
    else (RCL_RET_OK, false)
  | .TIMER =>
    if ws.timers.getD h.index false then
      let rc := env.timer_ready_ret i
      if rc ≠ RCL_RET_OK then (rc, false)
      -- double check: wait_set readiness against rcl_timer_is_ready
      else if env.timer_ready_val i then (RCL_RET_OK, true)
      else (RCL_RET_ERROR, false)
    else (RCL_RET_OK, false)
  | .NONE => (RCL_RET_ERROR, false)

/-- Overwrite only the `data_available` flag of handle `i`. -/
def setAvail (e : rcle_let_executor_t) (i : Nat) (b : Bool) :
    rcle_let_executor_t :=
  { e with handles := updFn e.handles i { e.handles i with data_available := b } }

/-- `_rcle_read_input_data`. -/
def _rcle_read_input_data (env : Env) (e : rcle_let_executor_t)
    (ws : rcl_wait_set_t) (i : Nat) : rcl_ret_t × rcle_let_executor_t :=
  let r := intakeResult env ws (e.handles i) i
  (r.1, setAvail e i r.2)

/-- The invoke decision of `_rcle_execute`: two successive tests exactly as
in the source. -/
def invokeFlag (h : rcle_handle_t) : Bool :=
  let invoke_callback := false
  let invoke_callback :=
    if h.invocation = .ON_NEW_DATA ∧ h.data_available then true else invoke_callback
  let invoke_callback :=
    if h.invocation = .ALWAYS then true else invoke_callback
  invoke_callback

/-- Body of `_rcle_execute` for one handle value: the returned code and the
invocations performed.  A failing `rcl_timer_call` has already been invoked
when its error is reported, so its event is recorded. -/
def execOne (env : Env) (h : rcle_handle_t) (i : Nat) :
    rcl_ret_t × List Event :=
  if invokeFlag h then
    match h.type with
    | .SUBSCRIPTION => (RCL_RET_OK, [Event.subCallback i h.callback h.data])
    | .TIMER =>
      let rc := env.timer_call_ret i
      if rc ≠ RCL_RET_OK then (rc, [Event.timerCall i h.timer])
      else (RCL_RET_OK, [Event.timerCall i h.timer])
    | .NONE => (RCL_RET_ERROR, [])
  else (RCL_RET_OK, [])

/-- `_rcle_execute`. -/
def _rcle_execute (env : Env) (e : rcle_let_executor_t) (i : Nat) :
    rcl_ret_t × List Event :=
  execOne env (e.handles i) i

/-- Result of phase 1 of `_rcle_let_scheduling`: `early` is true when the
loop returned out of the function, `rc` is the code the loop finished with,
`exec` the mutated executor and `vis` the handle positions visited. -/
structure Phase1Result where
  early : Bool
  rc : rcl_ret_t
  exec : rcle_let_executor_t
  vis : List Nat

/-- Step 1 loop of `_rcle_let_scheduling`
(`for (i = 0; i < max_handles && handles[i].initialized; i++)`), as a
fuel-bounded recursion; the top-level call supplies `fuel = max_handles`,
so fuel never runs out while the loop guard still holds. -/
def phase1_aux (env : Env) (ws : rcl_wait_set_t) (e : rcle_let_executor_t)
    (rc : rcl_ret_t) (i : Nat) : Nat → Phase1Result
  | 0 => ⟨false, rc, e, []⟩
  | fuel + 1 =>
    if i < e.max_handles ∧ (e.handles i).initialized then
      let r := _rcle_read_input_data env e ws i
      if r.1 ≠ RCL_RET_OK ∧ r.1 ≠ RCL_RET_SUBSCRIPTION_TAKE_FAILED then
        ⟨true, r.1, r.2, [i]⟩
      else
        let rest := phase1_aux env ws r.2 r.1 (i + 1) fuel
        ⟨rest.early, rest.rc, rest.exec, i :: rest.vis⟩
    else ⟨false, rc, e, []⟩

/-- Result of phase 2 of `_rcle_let_scheduling` (phase 2 never mutates the
executor). -/
structure Phase2Result where
  rc : rcl_ret_t
  vis : List Nat
  events : List Event
deriving DecidableEq, Repr

/-- Step 2/3 loop of `_rcle_let_scheduling`. -/
def phase2_aux (env : Env) (e : rcle_let_executor_t) (rc : rcl_ret_t)
    (i : Nat) : Nat → Phase2Result
  | 0 => ⟨rc, [], []⟩
  | fuel + 1 =>
    if i < e.max_handles ∧ (e.handles i).initialized then
      let r := _rcle_execute env e i
      if r.1 ≠ RCL_RET_OK then ⟨r.1, [i], r.2⟩
      else
        let rest := phase2_aux env e r.1 (i + 1) fuel
        ⟨rest.rc, i :: rest.vis, r.2 ++ rest.events⟩
    else ⟨rc, [], []⟩

/-- Result of one scheduling round (and of `spin_some`): code, final
executor, visit traces of both phases and phase-2 invocation events. -/
structure SchedResult where
  rc : rcl_ret_t
  exec : rcle_let_executor_t
  vis1 : List Nat
  vis2 : List Nat
  events : List Event

/-- `_rcle_let_scheduling`: phase 1 (input intake) over the initialized
prefix; an early return of phase 1 skips phase 2; otherwise phase 2
(execution) over the same prefix, carrying the last phase-1 code into the
phase-2 loop variable exactly as the C code does. -/
def _rcle_let_scheduling (env : Env) (e : rcle_let_executor_t)
    (ws : rcl_wait_set_t) : SchedResult :=
  let p1 := phase1_aux env ws e RCL_RET_OK 0 e.max_handles
  if p1.early then ⟨p1.rc, p1.exec, p1.vis, [], []⟩
  else
    let p2 := phase2_aux env p1.exec p1.rc 0 p1.exec.max_handles
    ⟨p2.rc, p1.exec, p1.vis, p2.vis, p2.events⟩

/-- Registration loop of `rcle_let_executor_spin_some` (add every handle of
the initialized prefix to the wait set, recording the returned slot in the
handle's `index` field). -/
def regLoop (env : Env) (e : rcle_let_executor_t) (i : Nat) :
    Nat → rcl_ret_t × rcle_let_executor_t
  | 0 => (RCL_RET_OK, e)
  | fuel + 1 =>
    if i < e.max_handles ∧ (e.handles i).initialized then
      match (e.handles i).type with
      | .SUBSCRIPTION =>
        let r := rcl_wait_set_add_subscription env i e.wait_set
        if r.1 ≠ RCL_RET_OK then (r.1, { e with wait_set := r.2.2 })
        else
          let e1 := { e with
            wait_set := r.2.2,
            handles := updFn e.handles i { e.handles i with index := r.2.1 } }
          regLoop env e1 (i + 1) fuel
      | .TIMER =>
        let r := rcl_wait_set_add_timer env i e.wait_set
        if r.1 ≠ RCL_RET_OK then (r.1, { e with wait_set := r.2.2 })
        else
          let e1 := { e with
            wait_set := r.2.2,
            handles := updFn e.handles i { e.handles i with index := r.2.1 } }
          regLoop env e1 (i + 1) fuel
      | .NONE => (RCL_RET_ERROR, e)
    else (RCL_RET_OK, e)

/-- Tail of `rcle_let_executor_spin_some` once a valid wait set exists:
clear, register all handles, wait, then run one scheduling round.  The
source assigns the result of `rcl_wait` to `rc` and immediately overwrites
`rc` with the result of `_rcle_let_scheduling`, so the wait outcome is
discarded; this model reproduces that faithfully. -/
def spin_some_after_build (env : Env) (e : rcle_let_executor_t)
    (timeout_ns : Nat) : SchedResult :=
  let c := rcl_wait_set_clear e.wait_set
  if c.1 ≠ RCL_RET_OK then ⟨c.1, { e with wait_set := c.2 }, [], [], []⟩
  else
    let e1 := { e with wait_set := c.2 }
    let r := regLoop env e1 0 e1.max_handles
    if r.1 ≠ RCL_RET_OK then ⟨r.1, r.2, [], [], []⟩
    else
      let e2 := r.2
      let w := rcl_wait env e2.wait_set timeout_ns
      let e3 := { e2 with wait_set := w.2 }
      _rcle_let_scheduling env e3 e3.wait_set

/-- `rcle_let_executor_spin_some`: build the wait set if it is absent
(finalize-to-zero then `rcl_wait_set_init`, failure of which is returned
with the wait set left absent), then clear/register/wait/schedule. -/
def rcle_let_executor_spin_some (env : Env) (e : rcle_let_executor_t)
    (timeout_ns : Nat) : SchedResult :=
  if ¬ rcl_wait_set_is_valid e.wait_set then
    let e1 := { e with wait_set := rcl_get_zero_initialized_wait_set }
    let r := rcl_wait_set_init env e1.info
    let e2 := { e1 with wait_set := r.2 }
    if r.1 ≠ RCL_RET_OK then ⟨r.1, e2, [], [], []⟩
    else spin_some_after_build env e2 timeout_ns
  else spin_some_after_build env e timeout_ns

/-- Result of `rcle_let_executor_spin_one_period`: the returned code, the
final executor, and the microseconds slept (`none` when no sleep happened). -/
structure PeriodResult where
  rc : rcl_ret_t
  exec : rcle_let_executor_t
  slept : Option Int

/-- `rcle_let_executor_spin_one_period`. -/
def rcle_let_executor_spin_one_period (env : Env) (e : rcle_let_executor_t)
    (period : Nat) : PeriodResult :=
  let e0 := if e.invocation_time = 0 then { e with invocation_time := env.latch_time } else e
  let s := rcle_let_executor_spin_some env e0 e0.timeout_ns
  if ¬ (s.rc = RCL_RET_OK ∨ s.rc = RCL_RET_TIMEOUT) then ⟨s.rc, s.exec, none⟩
  else
    -- sleep until invocation_time plus period
    let end_time_point : Int := env.end_time
    let sleep_time : Int := (s.exec.invocation_time + (period : Int)) - end_time_point
    let slept := if 0 < sleep_time then some (sleep_time / 1000) else none
    ⟨s.rc, { s.exec with invocation_time := s.exec.invocation_time + (period : Int) }, slept⟩

/-- A non-fatal outcome of the intake of one handle: success, or the expected
"no data" result of the fetch. -/
def intakeNonfatal (env : Env) (ws : rcl_wait_set_t) (h : rcle_handle_t)
    (i : Nat) : Prop :=
  (intakeResult env ws h i).1 = RCL_RET_OK ∨
  (intakeResult env ws h i).1 = RCL_RET_SUBSCRIPTION_TAKE_FAILED

instance (env : Env) (ws : rcl_wait_set_t) (h : rcle_handle_t) (i : Nat) :
    Decidable (intakeNonfatal env ws h i) := by
  unfold intakeNonfatal; infer_instance

/-- Spec-side invocation condition, written from the specification text:
invoke if the policy is `Always`, or if the policy is `OnNewData` and
`data_available` is true. -/
def spec_should_invoke (h : rcle_handle_t) : Bool :=
  decide (h.invocation = .ALWAYS ∨ (h.invocation = .ON_NEW_DATA ∧ h.data_available = true))

/-- Number of subscription handles among table positions `0..i-1`. -/
def subsBefore (e : rcle_let_executor_t) (i : Nat) : Nat :=
  ((List.range i).filter fun j => (e.handles j).type = .SUBSCRIPTION).length

/-- Number of timer handles among table positions `0..i-1`. -/
def timersBefore (e : rcle_let_executor_t) (i : Nat) : Nat :=
  ((List.range i).filter fun j => (e.handles j).type = .TIMER).length

/-- The wait-set slot the registration loop assigns to handle `i`: slots are
handed out per kind in table order, so handle `i` receives the count of
same-kind handles before it. -/
def slotOf (e : rcle_let_executor_t) (i : Nat) : Nat :=
  match (e.handles i).type with
  | .SUBSCRIPTION => subsBefore e i
  | .TIMER => timersBefore e i
  | .NONE => 0

/-- Outcome of the Readiness Provider registration call issued for handle
`j` by the registration loop. -/
def addRet (env : Env) (e : rcle_let_executor_t) (j : Nat) : rcl_ret_t :=
  match (e.handles j).type with
  | .SUBSCRIPTION => env.add_sub_ret j
  | .TIMER => env.add_timer_ret j
  | .NONE => RCL_RET_ERROR

/-- Every timer handle of the table carries the `ON_NEW_DATA` policy. -/
def timersOnNewData (e : rcle_let_executor_t) : Prop :=
  ∀ j, (e.handles j).type = .TIMER → (e.handles j).invocation = .ON_NEW_DATA

/-- Externally visible executor operations (the ones that touch the handle
table or run rounds). -/
inductive Op where
  | addSubscription (subscription msg callback : Option Nat)
      (invocation : rcle_invocation_t)
  | addTimer (timer : Option Nat)
  | setTimeout (timeout_ns : Nat)
  | spinSome (env : Env) (timeout_ns : Nat)

/-- Apply one operation to the executor, keeping its final state. -/
def applyOp (e : rcle_let_executor_t) : Op → rcle_let_executor_t
  | .addSubscription s m cb inv => (rcle_let_executor_add_subscription e s m cb inv).2
  | .addTimer t => (rcle_let_executor_add_timer e t).2
  | .setTimeout t => (rcle_let_executor_set_timeout e t).2
  | .spinSome env t => (rcle_let_executor_spin_some env e t).exec

/-- Apply a sequence of operations in order. -/
def applyOps (e : rcle_let_executor_t) : List Op → rcle_let_executor_t
  | [] => e
  | op :: ops => applyOps (applyOp e op) ops

/-! ### Concrete executors and oracles used to exercise the theorems -/

/-- A registered subscription handle (ids 5/7/9, policy ON_NEW_DATA). -/
def demo_sub_handle : rcle_handle_t :=
  { rcle_handle_init with
    type := .SUBSCRIPTION, subscription := 5, data := 7, callback := 9,
    invocation := .ON_NEW_DATA, initialized := true, index := 0 }

/-- A registered timer handle (id 4). -/
def demo_timer_handle : rcle_handle_t :=
  { rcle_handle_init with
    type := .TIMER, timer := 4, invocation := .ON_NEW_DATA,
    initialized := true, index := 0 }

/-- An executor with capacity 2 holding one subscription then one timer;
its wait set is absent, as after two adds. -/
def demo_exec : rcle_let_executor_t :=
  { handles := fun j =>
      if j = 0 then demo_sub_handle
      else if j = 1 then demo_timer_handle
      else rcle_handle_init,
    max_handles := 2, index := 2,
    wait_set := rcl_get_zero_initialized_wait_set,
    info := { rcle_handle_size_zero_init with
              number_of_subscriptions := 1, number_of_timers := 1 },
    timeout_ns := 100, invocation_time := 0 }

/-- A well-behaved oracle: construction, registration, wait, take and timer
calls all succeed, and both sources are signalled ready. -/
def demo_env : Env :=
  { wait_set_init_ret := RCL_RET_OK, add_sub_ret := fun _ => RCL_RET_OK,
    add_timer_ret := fun _ => RCL_RET_OK, wait_ret := RCL_RET_OK,
    sub_ready := [true], timer_ready := [true],
    take_ret := fun _ => RCL_RET_OK, timer_ready_ret := fun _ => RCL_RET_OK,
    timer_ready_val := fun _ => true, timer_call_ret := fun _ => RCL_RET_OK,
    latch_time := 1000, end_time := 1010 }

/-- A built wait set matching `demo_exec`, with both slots signalled ready. -/
def demo_ws : rcl_wait_set_t :=
  { valid := true, size_subscriptions := 1, size_timers := 1,
    sub_count := 1, timer_count := 1, subscriptions := [true], timers := [true] }

/-- Oracle whose subscription registration fails with `RCL_RET_ERROR`. -/
def c7_env : Env := { demo_env with add_sub_ret := fun _ => RCL_RET_ERROR }

/-- Oracle whose bounded wait fails fatally with `RCL_RET_ERROR`. -/
def c8_env : Env := { demo_env with wait_ret := RCL_RET_ERROR }

/-- Oracle whose wait-set construction fails with `RCL_RET_ERROR`. -/
def c9_env : Env := { demo_env with wait_set_init_ret := RCL_RET_ERROR }

/-- The demo executor mid-periodic-loop: `invocation_time` latched to 5. -/
def c9_exec : rcle_let_executor_t := { demo_exec with invocation_time := 5 }

/-- Oracle whose fetch reports the expected transient no-data outcome. -/
def c3_env : Env :=
  { demo_env with take_ret := fun _ => RCL_RET_SUBSCRIPTION_TAKE_FAILED }

/-- Oracle whose fetch fails with a fatal error. -/
def c3bad_env : Env := { demo_env with take_ret := fun _ => RCL_RET_ERROR }

/-- Oracle whose timer-ready double check denies expiry. -/
def c6_env : Env := { demo_env with timer_ready_val := fun _ => false }

/-- Oracle whose timer-ready check itself fails. -/
def c6bad_env : Env := { demo_env with timer_ready_ret := fun _ => RCL_RET_ERROR }

/-- The demo wait set with the timer slot not signalled ready. -/
def c6_ws : rcl_wait_set_t := { demo_ws with timers := [false] }

/-- Body of `rcle_let_executor_spin_one_period` after the first-call
latch of `invocation_time`: run one `spin_some`, bail out on a fatal
result, otherwise sleep up to the period boundary and advance
`invocation_time` by the period. -/
def spin_one_period_tail (env : Env) (e0 : rcle_let_executor_t)
    (period : Nat) : PeriodResult :=
  let s := rcle_let_executor_spin_some env e0 e0.timeout_ns
  if ¬ (s.rc = RCL_RET_OK ∨ s.rc = RCL_RET_TIMEOUT) then ⟨s.rc, s.exec, none⟩
  else
    let sleep_time : Int := (s.exec.invocation_time + (period : Int)) - env.end_time
    ⟨s.rc, { s.exec with invocation_time := s.exec.invocation_time + (period : Int) },
     if 0 < sleep_time then some (sleep_time / 1000) else none⟩

/-! ### Basic facts about the state updates -/

lemma updFn_same (f : Nat → rcle_handle_t) (i : Nat) (v : rcle_handle_t) :
    updFn f i v i = v := by
  simp [updFn]

lemma updFn_ne (f : Nat → rcle_handle_t) (i : Nat) (v : rcle_handle_t)
    (j : Nat) (h : j ≠ i) : updFn f i v j = f j := by
  simp [updFn, h]

@[simp] lemma setAvail_max (e : rcle_let_executor_t) (i : Nat) (b : Bool) :
    (setAvail e i b).max_handles = e.max_handles := rfl

@[simp] lemma setAvail_exec_index (e : rcle_let_executor_t) (i : Nat) (b : Bool) :
    (setAvail e i b).index = e.index := rfl

@[simp] lemma setAvail_wait_set (e : rcle_let_executor_t) (i : Nat) (b : Bool) :
    (setAvail e i b).wait_set = e.wait_set := rfl

@[simp] lemma setAvail_info (e : rcle_let_executor_t) (i : Nat) (b : Bool) :
    (setAvail e i b).info = e.info := rfl

@[simp] lemma setAvail_timeout (e : rcle_let_executor_t) (i : Nat) (b : Bool) :
    (setAvail e i b).timeout_ns = e.timeout_ns := rfl

@[simp] lemma setAvail_invocation_time (e : rcle_let_executor_t) (i : Nat) (b : Bool) :
    (setAvail e i b).invocation_time = e.invocation_time := rfl

lemma setAvail_handles_same (e : rcle_let_executor_t) (i : Nat) (b : Bool) :
    (setAvail e i b).handles i = { e.handles i with data_available := b } := by
  simp [setAvail, updFn]

lemma setAvail_handles_ne (e : rcle_let_executor_t) (i : Nat) (b : Bool)
    (j : Nat) (h : j ≠ i) : (setAvail e i b).handles j = e.handles j := by
  simp [setAvail, updFn, h]

/-- `intakeResult` never reads the `data_available` flag of the handle. -/
lemma intakeResult_avail_irrel (env : Env) (ws : rcl_wait_set_t)
    (h : rcle_handle_t) (i : Nat) (b : Bool) :
    intakeResult env ws { h with data_available := b } i = intakeResult env ws h i := by
  cases h with
  | mk t s tm d cb inv idx ini av => cases t <;> rfl

/-- The executor and handle fields that one scheduling round never changes. -/
structure CorePreserved (e e' : rcle_let_executor_t) : Prop where
  max_eq : e'.max_handles = e.max_handles
  index_eq : e'.index = e.index
  info_eq : e'.info = e.info
  timeout_eq : e'.timeout_ns = e.timeout_ns
  time_eq : e'.invocation_time = e.invocation_time
  type_eq : ∀ j, (e'.handles j).type = (e.handles j).type
  invocation_eq : ∀ j, (e'.handles j).invocation = (e.handles j).invocation
  init_eq : ∀ j, (e'.handles j).initialized = (e.handles j).initialized

lemma CorePreserved.refl (e : rcle_let_executor_t) : CorePreserved e e :=
  ⟨rfl, rfl, rfl, rfl, rfl, fun _ => rfl, fun _ => rfl, fun _ => rfl⟩

lemma CorePreserved.trans {a b c : rcle_let_executor_t}
    (h1 : CorePreserved a b) (h2 : CorePreserved b c) : CorePreserved a c :=
  ⟨h2.max_eq.trans h1.max_eq, h2.index_eq.trans h1.index_eq,
   h2.info_eq.trans h1.info_eq, h2.timeout_eq.trans h1.timeout_eq,
   h2.time_eq.trans h1.time_eq,
   fun j => (h2.type_eq j).trans (h1.type_eq j),
   fun j => (h2.invocation_eq j).trans (h1.invocation_eq j),
   fun j => (h2.init_eq j).trans (h1.init_eq j)⟩

lemma setAvail_core (e : rcle_let_executor_t) (i : Nat) (b : Bool) :
    CorePreserved e (setAvail e i b) := by
  refine ⟨rfl, rfl, rfl, rfl, rfl, ?_, ?_, ?_⟩ <;> intro j <;>
    by_cases hj : j = i <;>
    simp [hj, setAvail_handles_same, setAvail_handles_ne]

/-! ### Phase 1: preservation and characterization -/

lemma phase1_aux_core (env : Env) (ws : rcl_wait_set_t) :
    ∀ (fuel i : Nat) (e : rcle_let_executor_t) (rc : rcl_ret_t),
      CorePreserved e (phase1_aux env ws e rc i fuel).exec := by
  intro fuel
  induction fuel with
  | zero => intro i e rc; exact CorePreserved.refl e
  | succ fuel ih =>
    intro i e rc
    simp only [phase1_aux, _rcle_read_input_data]
    split
    · split
      · exact setAvail_core e i _
      · exact (setAvail_core e i _).trans (ih _ _ _)
    · exact CorePreserved.refl e

lemma phase1_aux_wait_set (env : Env) (ws : rcl_wait_set_t) :
    ∀ (fuel i : Nat) (e : rcle_let_executor_t) (rc : rcl_ret_t),
      (phase1_aux env ws e rc i fuel).exec.wait_set = e.wait_set := by
  intro fuel
  induction fuel with
  | zero => intro i e rc; rfl
  | succ fuel ih =>
    intro i e rc
    simp only [phase1_aux, _rcle_read_input_data]
    split
    · split
      · simp
      · rw [ih]; simp
    · rfl

/-- Handles below the loop start are never touched by phase 1. -/
lemma phase1_aux_lower (env : Env) (ws : rcl_wait_set_t) :
    ∀ (fuel i : Nat) (e : rcle_let_executor_t) (rc : rcl_ret_t) (j : Nat),
      j < i → (phase1_aux env ws e rc i fuel).exec.handles j = e.handles j := by
  intro fuel
  induction fuel with
  | zero => intro i e rc j hj; rfl
  | succ fuel ih =>
    intro i e rc j hj
    simp only [phase1_aux, _rcle_read_input_data]
    split
    · split
      · exact setAvail_handles_ne e i _ j (by omega)
      · rw [ih _ _ _ j (by omega), setAvail_handles_ne e i _ j (by omega)]
    · rfl

lemma phase1_aux_step (env : Env) (ws : rcl_wait_set_t)
    (e : rcle_let_executor_t) (rc : rcl_ret_t) (i fuel : Nat)
    (hg : i < e.max_handles ∧ (e.handles i).initialized = true)
    (hnf : ¬((intakeResult env ws (e.handles i) i).1 ≠ RCL_RET_OK ∧
             (intakeResult env ws (e.handles i) i).1 ≠ RCL_RET_SUBSCRIPTION_TAKE_FAILED)) :
    phase1_aux env ws e rc i (fuel + 1) =
      ⟨(phase1_aux env ws (setAvail e i (intakeResult env ws (e.handles i) i).2)
          (intakeResult env ws (e.handles i) i).1 (i + 1) fuel).early,
       (phase1_aux env ws (setAvail e i (intakeResult env ws (e.handles i) i).2)
          (intakeResult env ws (e.handles i) i).1 (i + 1) fuel).rc,
       (phase1_aux env ws (setAvail e i (intakeResult env ws (e.handles i) i).2)
          (intakeResult env ws (e.handles i) i).1 (i + 1) fuel).exec,
       i :: (phase1_aux env ws (setAvail e i (intakeResult env ws (e.handles i) i).2)
          (intakeResult env ws (e.handles i) i).1 (i + 1) fuel).vis⟩ := by
  simp only [phase1_aux, _rcle_read_input_data]
  rw [if_pos hg, if_neg hnf]

lemma phase1_aux_step_fatal (env : Env) (ws : rcl_wait_set_t)
    (e : rcle_let_executor_t) (rc : rcl_ret_t) (i fuel : Nat)
    (hg : i < e.max_handles ∧ (e.handles i).initialized = true)
    (hf : (intakeResult env ws (e.handles i) i).1 ≠ RCL_RET_OK ∧
          (intakeResult env ws (e.handles i) i).1 ≠ RCL_RET_SUBSCRIPTION_TAKE_FAILED) :
    phase1_aux env ws e rc i (fuel + 1) =
      ⟨true, (intakeResult env ws (e.handles i) i).1,
       setAvail e i (intakeResult env ws (e.handles i) i).2, [i]⟩ := by
  simp only [phase1_aux, _rcle_read_input_data]
  rw [if_pos hg, if_pos hf]

lemma phase1_aux_stop (env : Env) (ws : rcl_wait_set_t)
    (e : rcle_let_executor_t) (rc : rcl_ret_t) (i fuel : Nat)
    (hg : ¬(i < e.max_handles ∧ (e.handles i).initialized = true)) :
    phase1_aux env ws e rc i (fuel + 1) = ⟨false, rc, e, []⟩ := by
  simp only [phase1_aux]
  rw [if_neg hg]

/-- Characterization of a phase-1 pass that meets no fatal intake outcome:
the loop visits the whole initialized prefix in index order, does not return
early, and rewrites exactly the `data_available` flag of every prefix handle
to its intake outcome. -/
lemma phase1_aux_run (env : Env) (ws : rcl_wait_set_t) (e0 : rcle_let_executor_t)
    (hIdx : e0.index ≤ e0.max_handles)
    (hInit : ∀ j, j < e0.max_handles → ((e0.handles j).initialized = true ↔ j < e0.index)) :
    ∀ (fuel i : Nat) (e : rcle_let_executor_t) (rc : rcl_ret_t),
      i + fuel = e0.max_handles → i ≤ e0.index →
      e.max_handles = e0.max_handles →
      (∀ j, e.handles j =
        if j < i then
          { e0.handles j with data_available := (intakeResult env ws (e0.handles j) j).2 }
        else e0.handles j) →
      (∀ j, i ≤ j → j < e0.index → intakeNonfatal env ws (e0.handles j) j) →
      (phase1_aux env ws e rc i fuel).early = false ∧
      (∀ j, (phase1_aux env ws e rc i fuel).exec.handles j =
        if j < e0.index then
          { e0.handles j with data_available := (intakeResult env ws (e0.handles j) j).2 }
        else e0.handles j) ∧
      (phase1_aux env ws e rc i fuel).vis = List.range' i (e0.index - i) := by
  intro fuel
  induction fuel with
  | zero =>
    intro i e rc hif hi hm he hNF
    have hie : i = e0.index := by omega
    refine ⟨rfl, ?_, ?_⟩
    · intro j
      show e.handles j = _
      rw [he j, hie]
    · show ([] : List Nat) = _
      rw [hie, Nat.sub_self]
      rfl
  | succ fuel ih =>
    intro i e rc hif hi hm he hNF
    rcases Nat.lt_or_ge i e0.index with hlt | hge
    · have hei : e.handles i = e0.handles i := by
        rw [he i, if_neg (by omega)]
      have hg : i < e.max_handles ∧ (e.handles i).initialized = true :=
        ⟨by omega, by rw [hei]; exact (hInit i (by omega)).mpr hlt⟩
      have hnf : ¬((intakeResult env ws (e.handles i) i).1 ≠ RCL_RET_OK ∧
          (intakeResult env ws (e.handles i) i).1 ≠ RCL_RET_SUBSCRIPTION_TAKE_FAILED) := by
        rw [hei]
        rcases hNF i (le_refl i) hlt with h | h <;> simp [h]
      rw [phase1_aux_step env ws e rc i fuel hg hnf]
      have hrec := ih (i + 1) (setAvail e i (intakeResult env ws (e.handles i) i).2)
        (intakeResult env ws (e.handles i) i).1 (by omega) (by omega)
        (by simp [hm]) ?_ (fun j h1 h2 => hNF j (by omega) h2)
      · refine ⟨hrec.1, hrec.2.1, ?_⟩
        have hn : e0.index - i = (e0.index - (i + 1)) + 1 := by omega
        rw [hn, List.range'_succ]
        exact congrArg (i :: ·) hrec.2.2
      · intro j
        by_cases hj : j = i
        · subst hj
          rw [setAvail_handles_same, hei, if_pos (by omega)]
        · rw [setAvail_handles_ne e i _ j hj, he j]
          by_cases hji : j < i
          · rw [if_pos hji, if_pos (by omega)]
          · rw [if_neg hji, if_neg (by omega)]
    · have hie : i = e0.index := by omega
      have hg : ¬(i < e.max_handles ∧ (e.handles i).initialized = true) := by
        rintro ⟨h1, h2⟩
        rw [he i, if_neg (by omega)] at h2
        exact absurd ((hInit i (by omega)).mp h2) (by omega)
      rw [phase1_aux_stop env ws e rc i fuel hg]
      refine ⟨rfl, ?_, ?_⟩
      · intro j
        show e.handles j = _
        rw [he j, hie]
      · show ([] : List Nat) = _
        rw [hie, Nat.sub_self]
        rfl

/-- If phase 1 did not return early and handle `j` lies in a contiguous
initialized stretch starting at the loop position, then the final
`data_available` flag of handle `j` is exactly its intake outcome. -/
lemma phase1_aux_complete (env : Env) (ws : rcl_wait_set_t) :
    ∀ (fuel i : Nat) (e : rcle_let_executor_t) (rc : rcl_ret_t) (j : Nat),
      (phase1_aux env ws e rc i fuel).early = false →
      i ≤ j → j < i + fuel → j < e.max_handles →
      (∀ k, i ≤ k → k ≤ j → (e.handles k).initialized = true) →
      (phase1_aux env ws e rc i fuel).exec.handles j =
        { e.handles j with data_available := (intakeResult env ws (e.handles j) j).2 } := by
  intro fuel
  induction fuel with
  | zero => intro i e rc j _ h1 h2 _ _; omega
  | succ fuel ih =>
    intro i e rc j hEarly hij hjf hjm hSeg
    have hg : i < e.max_handles ∧ (e.handles i).initialized = true :=
      ⟨by omega, hSeg i (le_refl i) hij⟩
    by_cases hfatal : (intakeResult env ws (e.handles i) i).1 ≠ RCL_RET_OK ∧
        (intakeResult env ws (e.handles i) i).1 ≠ RCL_RET_SUBSCRIPTION_TAKE_FAILED
    · rw [phase1_aux_step_fatal env ws e rc i fuel hg hfatal] at hEarly
      simp at hEarly
    · rw [phase1_aux_step env ws e rc i fuel hg hfatal] at hEarly ⊢
      rcases Nat.eq_or_lt_of_le hij with heq | hlt
      · subst heq
        show (phase1_aux env ws _ _ (i + 1) fuel).exec.handles i = _
        rw [phase1_aux_lower env ws fuel (i + 1) _ _ i (by omega)]
        rw [setAvail_handles_same]
      · have hrec := ih (i + 1) (setAvail e i (intakeResult env ws (e.handles i) i).2)
          (intakeResult env ws (e.handles i) i).1 j hEarly (by omega) (by omega)
          (by simpa using hjm) ?_
        · show (phase1_aux env ws _ _ (i + 1) fuel).exec.handles j = _
          rw [hrec, setAvail_handles_ne e i _ j (by omega)]
        · intro k hk1 hk2
          rw [setAvail_handles_ne e i _ k (by omega)]
          exact hSeg k (by omega) hk2

/-- If the first fatal intake outcome sits at position `js` of the
initialized prefix, phase 1 visits `0..js`, returns early, and reports that
outcome. -/
lemma phase1_aux_abort (env : Env) (ws : rcl_wait_set_t) (e0 : rcle_let_executor_t)
    (hIdx : e0.index ≤ e0.max_handles)
    (hInit : ∀ j, j < e0.max_handles → ((e0.handles j).initialized = true ↔ j < e0.index))
    (js : Nat) (hjs : js < e0.index)
    (hfatal : (intakeResult env ws (e0.handles js) js).1 ≠ RCL_RET_OK ∧
              (intakeResult env ws (e0.handles js) js).1 ≠ RCL_RET_SUBSCRIPTION_TAKE_FAILED) :
    ∀ (fuel i : Nat) (e : rcle_let_executor_t) (rc : rcl_ret_t),
      i + fuel = e0.max_handles → i ≤ js →
      e.max_handles = e0.max_handles →
      (∀ j, i ≤ j → e.handles j = e0.handles j) →
      (∀ j, i ≤ j → j < js → intakeNonfatal env ws (e0.handles j) j) →
      (phase1_aux env ws e rc i fuel).early = true ∧
      (phase1_aux env ws e rc i fuel).rc = (intakeResult env ws (e0.handles js) js).1 := by
  intro fuel
  induction fuel with
  | zero => intro i e rc hif hi hm he hNF; omega
  | succ fuel ih =>
    intro i e rc hif hi hm he hNF
    have hei : e.handles i = e0.handles i := he i (le_refl i)
    have hg : i < e.max_handles ∧ (e.handles i).initialized = true :=
      ⟨by omega, by rw [hei]; exact (hInit i (by omega)).mpr (by omega)⟩
    rcases Nat.eq_or_lt_of_le hi with heq | hlt
    · subst heq
      have hf : (intakeResult env ws (e.handles i) i).1 ≠ RCL_RET_OK ∧
          (intakeResult env ws (e.handles i) i).1 ≠ RCL_RET_SUBSCRIPTION_TAKE_FAILED := by
        rw [hei]; exact hfatal
      rw [phase1_aux_step_fatal env ws e rc i fuel hg hf]
      exact ⟨rfl, by rw [hei]⟩
    · have hnf : ¬((intakeResult env ws (e.handles i) i).1 ≠ RCL_RET_OK ∧
          (intakeResult env ws (e.handles i) i).1 ≠ RCL_RET_SUBSCRIPTION_TAKE_FAILED) := by
        rw [hei]
        rcases hNF i (le_refl i) hlt with h | h <;> simp [h]
      rw [phase1_aux_step env ws e rc i fuel hg hnf]
      exact ih (i + 1) (setAvail e i (intakeResult env ws (e.handles i) i).2)
        (intakeResult env ws (e.handles i) i).1 (by omega) (by omega)
        (by simp [hm])
        (fun j hj => by
          rw [setAvail_handles_ne e i _ j (by omega)]
          exact he j (by omega))
        (fun j h1 h2 => hNF j (by omega) h2)

/-! ### Phase 2: invocation decision and traces -/

/-- The two successive tests of the source compute exactly the spec's
invocation condition. -/
lemma invokeFlag_eq_spec (h : rcle_handle_t) :
    invokeFlag h = spec_should_invoke h := by
  cases hinv : h.invocation <;> cases hav : h.data_available <;>
    simp [invokeFlag, spec_should_invoke, hinv, hav]

lemma execOne_rc_ok (env : Env) (h : rcle_handle_t) (i : Nat)
    (ht : h.type ≠ .NONE) (htc : env.timer_call_ret i = RCL_RET_OK) :
    (execOne env h i).1 = RCL_RET_OK := by
  cases hty : h.type with
  | NONE => exact absurd hty ht
  | SUBSCRIPTION => cases hf : invokeFlag h <;> simp [execOne, hty, hf]
  | TIMER => cases hf : invokeFlag h <;> simp [execOne, hty, hf, htc]

lemma execOne_map_eventIndex (env : Env) (h : rcle_handle_t) (i : Nat)
    (hok : (execOne env h i).1 = RCL_RET_OK) :
    ((execOne env h i).2).map eventIndex =
      if spec_should_invoke h then [i] else [] := by
  rw [← invokeFlag_eq_spec]
  cases hty : h.type with
  | NONE =>
    cases hf : invokeFlag h
    · simp [execOne, hf]
    · rw [execOne, hf] at hok
      simp [hty, RCL_RET_ERROR, RCL_RET_OK] at hok
  | SUBSCRIPTION => cases hf : invokeFlag h <;> simp [execOne, hty, hf, eventIndex]
  | TIMER =>
    cases hf : invokeFlag h <;>
      by_cases htc : env.timer_call_ret i = RCL_RET_OK <;>
      simp [execOne, hty, hf, htc, eventIndex]

lemma phase2_aux_step (env : Env) (e : rcle_let_executor_t) (rc : rcl_ret_t)
    (i fuel : Nat)
    (hg : i < e.max_handles ∧ (e.handles i).initialized = true)
    (hok : (execOne env (e.handles i) i).1 = RCL_RET_OK) :
    phase2_aux env e rc i (fuel + 1) =
      ⟨(phase2_aux env e RCL_RET_OK (i + 1) fuel).rc,
       i :: (phase2_aux env e RCL_RET_OK (i + 1) fuel).vis,
       (execOne env (e.handles i) i).2 ++ (phase2_aux env e RCL_RET_OK (i + 1) fuel).events⟩ := by
  simp only [phase2_aux, _rcle_execute]
  rw [if_pos hg, if_neg (by simp [hok]), hok]

lemma phase2_aux_stop (env : Env) (e : rcle_let_executor_t) (rc : rcl_ret_t)
    (i fuel : Nat)
    (hg : ¬(i < e.max_handles ∧ (e.handles i).initialized = true)) :
    phase2_aux env e rc i (fuel + 1) = ⟨rc, [], []⟩ := by
  simp only [phase2_aux]
  rw [if_neg hg]

/-- Characterization of a phase-2 pass in which every per-handle execution
succeeds: the loop visits the whole initialized prefix in index order, and
the invoked handles are exactly those singled out by the spec's invocation
condition, in table order. -/
lemma phase2_aux_run (env : Env) (e : rcle_let_executor_t)
    (hIdx : e.index ≤ e.max_handles)
    (hInit : ∀ j, j < e.max_handles → ((e.handles j).initialized = true ↔ j < e.index))
    (hOk : ∀ j, j < e.index → (execOne env (e.handles j) j).1 = RCL_RET_OK) :
    ∀ (fuel i : Nat) (rc : rcl_ret_t),
      i + fuel = e.max_handles → i ≤ e.index →
      (phase2_aux env e rc i fuel).vis = List.range' i (e.index - i) ∧
      ((phase2_aux env e rc i fuel).events).map eventIndex =
        (List.range' i (e.index - i)).filter (fun j => spec_should_invoke (e.handles j)) := by
  intro fuel
  induction fuel with
  | zero =>
    intro i rc hif hi
    have hie : i = e.index := by omega
    rw [hie, Nat.sub_self]
    exact ⟨rfl, rfl⟩
  | succ fuel ih =>
    intro i rc hif hi
    rcases Nat.lt_or_ge i e.index with hlt | hge
    · have hg : i < e.max_handles ∧ (e.handles i).initialized = true :=
        ⟨by omega, (hInit i (by omega)).mpr hlt⟩
      rw [phase2_aux_step env e rc i fuel hg (hOk i hlt)]
      have hrec := ih (i + 1) RCL_RET_OK (by omega) (by omega)
      have hn : e.index - i = (e.index - (i + 1)) + 1 := by omega
      rw [hn, List.range'_succ]
      refine ⟨congrArg (i :: ·) hrec.1, ?_⟩
      show ((execOne env (e.handles i) i).2 ++ _).map eventIndex = _
      rw [List.map_append, hrec.2, execOne_map_eventIndex env _ i (hOk i hlt),
        List.filter_cons]
      by_cases hsi : spec_should_invoke (e.handles i) = true <;> simp [hsi]
    · have hie : i = e.index := by omega
      have hg : ¬(i < e.max_handles ∧ (e.handles i).initialized = true) := by
        rintro ⟨h1, h2⟩
        exact absurd ((hInit i h1).mp h2) (by omega)
      rw [phase2_aux_stop env e rc i fuel hg, hie, Nat.sub_self]
      exact ⟨rfl, rfl⟩

/-- Every event of phase 2 stems from `_rcle_execute` on some initialized
handle at or after the loop start. -/
lemma phase2_aux_events_mem (env : Env) (e : rcle_let_executor_t) :
    ∀ (fuel i : Nat) (rc : rcl_ret_t) (ev : Event),
      ev ∈ (phase2_aux env e rc i fuel).events →
      ∃ j, i ≤ j ∧ j < e.max_handles ∧ (e.handles j).initialized = true ∧
        ev ∈ (execOne env (e.handles j) j).2 := by
  intro fuel
  induction fuel with
  | zero =>
    intro i rc ev h
    simp [phase2_aux] at h
  | succ fuel ih =>
    intro i rc ev h
    by_cases hg : i < e.max_handles ∧ (e.handles i).initialized = true
    · by_cases hrc : (execOne env (e.handles i) i).1 = RCL_RET_OK
      · rw [phase2_aux_step env e rc i fuel hg hrc] at h
        rcases List.mem_append.mp h with h1 | h2
        · exact ⟨i, le_refl i, hg.1, hg.2, h1⟩
        · obtain ⟨j, hj1, hj2, hj3, hj4⟩ := ih (i + 1) RCL_RET_OK ev h2
          exact ⟨j, by omega, hj2, hj3, hj4⟩
      · have hstep : phase2_aux env e rc i (fuel + 1) =
            ⟨(execOne env (e.handles i) i).1, [i], (execOne env (e.handles i) i).2⟩ := by
          simp only [phase2_aux, _rcle_execute]
          rw [if_pos hg, if_pos (by simp [hrc])]
        rw [hstep] at h
        exact ⟨i, le_refl i, hg.1, hg.2, h⟩
    · rw [phase2_aux_stop env e rc i fuel hg] at h
      simp at h

/-- A `timerCall` event of `_rcle_execute` identifies its handle position, a
TIMER handle and a positive invoke decision. -/
lemma execOne_timerCall_mem (env : Env) (h : rcle_handle_t) (j i t : Nat)
    (hm : Event.timerCall i t ∈ (execOne env h j).2) :
    i = j ∧ h.type = .TIMER ∧ invokeFlag h = true := by
  cases hf : invokeFlag h with
  | false => simp [execOne, hf] at hm
  | true =>
    cases hty : h.type with
    | NONE => simp [execOne, hf, hty] at hm
    | SUBSCRIPTION => simp [execOne, hf, hty] at hm
    | TIMER =>
      by_cases hc : env.timer_call_ret j = RCL_RET_OK <;>
        simp [execOne, hf, hty, hc] at hm
      · exact ⟨hm.1, rfl, rfl⟩
      · exact ⟨hm.1, rfl, rfl⟩

/-! ### Counting subscriptions and timers in the table prefix -/

lemma subsBefore_succ (e : rcle_let_executor_t) (i : Nat) :
    subsBefore e (i + 1) =
      subsBefore e i + (if (e.handles i).type = .SUBSCRIPTION then 1 else 0) := by
  unfold subsBefore
  rw [List.range_succ, List.filter_append, List.length_append]
  by_cases h : (e.handles i).type = .SUBSCRIPTION <;> simp [h]

lemma timersBefore_succ (e : rcle_let_executor_t) (i : Nat) :
    timersBefore e (i + 1) =
      timersBefore e i + (if (e.handles i).type = .TIMER then 1 else 0) := by
  unfold timersBefore
  rw [List.range_succ, List.filter_append, List.length_append]
  by_cases h : (e.handles i).type = .TIMER <;> simp [h]

lemma subsBefore_le (e : rcle_let_executor_t) {i j : Nat} (h : i ≤ j) :
    subsBefore e i ≤ subsBefore e j := by
  induction j, h using Nat.le_induction with
  | base => exact le_refl _
  | succ j hj ih => rw [subsBefore_succ]; omega

lemma timersBefore_le (e : rcle_let_executor_t) {i j : Nat} (h : i ≤ j) :
    timersBefore e i ≤ timersBefore e j := by
  induction j, h using Nat.le_induction with
  | base => exact le_refl _
  | succ j hj ih => rw [timersBefore_succ]; omega

lemma subsBefore_lt (e : rcle_let_executor_t) {i n : Nat} (hi : i < n)
    (ht : (e.handles i).type = .SUBSCRIPTION) :
    subsBefore e i < subsBefore e n := by
  have h1 := subsBefore_succ e i
  have h2 := subsBefore_le e (show i + 1 ≤ n from hi)
  rw [if_pos ht] at h1
  omega

lemma timersBefore_lt (e : rcle_let_executor_t) {i n : Nat} (hi : i < n)
    (ht : (e.handles i).type = .TIMER) :
    timersBefore e i < timersBefore e n := by
  have h1 := timersBefore_succ e i
  have h2 := timersBefore_le e (show i + 1 ≤ n from hi)
  rw [if_pos ht] at h1
  omega

/-! ### Pointwise shape of the mutations of phase 1 and the registration loop -/

/-- Phase 1 rewrites at most the `data_available` flag of any handle. -/
lemma phase1_aux_avail_only (env : Env) (ws : rcl_wait_set_t) :
    ∀ (fuel i : Nat) (e : rcle_let_executor_t) (rc : rcl_ret_t) (j : Nat),
      ∃ b, (phase1_aux env ws e rc i fuel).exec.handles j =
        { e.handles j with data_available := b } := by
  intro fuel
  induction fuel with
  | zero => intro i e rc j; exact ⟨(e.handles j).data_available, rfl⟩
  | succ fuel ih =>
    intro i e rc j
    simp only [phase1_aux, _rcle_read_input_data]
    split
    · split
      · by_cases hj : j = i
        · subst hj
          exact ⟨_, setAvail_handles_same e j _⟩
        · exact ⟨(e.handles j).data_available,
            by rw [setAvail_handles_ne e i _ j hj]⟩
      · obtain ⟨b, hb⟩ := ih (i + 1) (setAvail e i _) _ j
        refine ⟨b, ?_⟩
        rw [hb]
        by_cases hj : j = i
        · subst hj
          rw [setAvail_handles_same]
        · rw [setAvail_handles_ne e i _ j hj]
    · exact ⟨(e.handles j).data_available, rfl⟩

/-- The final executor of a round is the phase-1 executor (phase 2 mutates
nothing). -/
lemma scheduling_exec_eq (env : Env) (e : rcle_let_executor_t)
    (ws : rcl_wait_set_t) :
    (_rcle_let_scheduling env e ws).exec =
      (phase1_aux env ws e RCL_RET_OK 0 e.max_handles).exec := by
  unfold _rcle_let_scheduling
  by_cases h : (phase1_aux env ws e RCL_RET_OK 0 e.max_handles).early = true <;>
    simp [h]

/-- The scheduling round rewrites at most the `data_available` flag of any
handle, and never the wait set. -/
lemma scheduling_avail_only (env : Env) (e : rcle_let_executor_t)
    (ws : rcl_wait_set_t) (j : Nat) :
    (∃ b, (_rcle_let_scheduling env e ws).exec.handles j =
        { e.handles j with data_available := b }) ∧
    (_rcle_let_scheduling env e ws).exec.wait_set = e.wait_set ∧
    CorePreserved e (_rcle_let_scheduling env e ws).exec := by
  refine ⟨?_, ?_, ?_⟩ <;> rw [scheduling_exec_eq]
  · exact phase1_aux_avail_only env ws _ 0 e RCL_RET_OK j
  · exact phase1_aux_wait_set env ws _ 0 e RCL_RET_OK
  · exact phase1_aux_core env ws _ 0 e RCL_RET_OK

/-- The registration loop rewrites at most the wait-set slot field `index`
of any handle. -/
lemma regLoop_index_only (env : Env) :
    ∀ (fuel i : Nat) (e : rcle_let_executor_t) (j : Nat),
      ∃ ix, (regLoop env e i fuel).2.handles j =
        { e.handles j with index := ix } := by
  intro fuel
  induction fuel with
  | zero => intro i e j; exact ⟨(e.handles j).index, rfl⟩
  | succ fuel ih =>
    intro i e j
    simp only [regLoop]
    split
    · split
      · split
        · exact ⟨(e.handles j).index, rfl⟩
        · obtain ⟨ix, hx⟩ := ih (i + 1) _ j
          refine ⟨ix, ?_⟩
          rw [hx]
          by_cases hj : j = i
          · subst hj; simp [updFn_same]
          · simp [updFn_ne _ _ _ j hj]
      · split
        · exact ⟨(e.handles j).index, rfl⟩
        · obtain ⟨ix, hx⟩ := ih (i + 1) _ j
          refine ⟨ix, ?_⟩
          rw [hx]
          by_cases hj : j = i
          · subst hj; simp [updFn_same]
          · simp [updFn_ne _ _ _ j hj]
      · exact ⟨(e.handles j).index, rfl⟩
    · exact ⟨(e.handles j).index, rfl⟩

/-- The registration loop never touches the scalar executor fields. -/
lemma regLoop_fields (env : Env) :
    ∀ (fuel i : Nat) (e : rcle_let_executor_t),
      (regLoop env e i fuel).2.max_handles = e.max_handles ∧
      (regLoop env e i fuel).2.index = e.index ∧
      (regLoop env e i fuel).2.info = e.info ∧
      (regLoop env e i fuel).2.timeout_ns = e.timeout_ns ∧
      (regLoop env e i fuel).2.invocation_time = e.invocation_time := by
  intro fuel
  induction fuel with
  | zero => intro i e; exact ⟨rfl, rfl, rfl, rfl, rfl⟩
  | succ fuel ih =>
    intro i e
    simp only [regLoop]
    split
    · split
      · split
        · exact ⟨rfl, rfl, rfl, rfl, rfl⟩
        · exact ih (i + 1) _
      · split
        · exact ⟨rfl, rfl, rfl, rfl, rfl⟩
        · exact ih (i + 1) _
      · exact ⟨rfl, rfl, rfl, rfl, rfl⟩
    · exact ⟨rfl, rfl, rfl, rfl, rfl⟩

lemma regLoop_core (env : Env) (fuel i : Nat) (e : rcle_let_executor_t) :
    CorePreserved e (regLoop env e i fuel).2 := by
  obtain ⟨h1, h2, h3, h4, h5⟩ := regLoop_fields env fuel i e
  refine ⟨h1, h2, h3, h4, h5, ?_, ?_, ?_⟩ <;> intro j <;>
    obtain ⟨ix, hx⟩ := regLoop_index_only env fuel i e j <;> rw [hx]

/-! ### The registration loop of spin_some -/

/-- Characterization of a fully successful registration pass starting from a
cleared wait set: every handle of the initialized prefix is registered in
table order and receives the slot equal to the count of same-kind handles
before it; the final wait set holds the per-kind totals. -/
lemma regLoop_run (env : Env) (e0 : rcle_let_executor_t) (ws0 : rcl_wait_set_t)
    (hIdx : e0.index ≤ e0.max_handles)
    (hInit : ∀ j, j < e0.max_handles → ((e0.handles j).initialized = true ↔ j < e0.index))
    (hAdd : ∀ j, j < e0.index → addRet env e0 j = RCL_RET_OK)
    (hValid : ws0.valid = true)
    (hSzS : subsBefore e0 e0.index ≤ ws0.size_subscriptions)
    (hSzT : timersBefore e0 e0.index ≤ ws0.size_timers) :
    ∀ (fuel i : Nat) (e : rcle_let_executor_t),
      i + fuel = e0.max_handles → i ≤ e0.index →
      e.max_handles = e0.max_handles →
      (∀ j, e.handles j =
        if j < i then { e0.handles j with index := slotOf e0 j } else e0.handles j) →
      e.wait_set = { ws0 with
        sub_count := subsBefore e0 i, timer_count := timersBefore e0 i } →
      (regLoop env e i fuel).1 = RCL_RET_OK ∧
      (∀ j, (regLoop env e i fuel).2.handles j =
        if j < e0.index then { e0.handles j with index := slotOf e0 j } else e0.handles j) ∧
      (regLoop env e i fuel).2.wait_set = { ws0 with
        sub_count := subsBefore e0 e0.index, timer_count := timersBefore e0 e0.index } := by
  intro fuel
  induction fuel with
  | zero =>
    intro i e hif hi hm he hws
    have hie : i = e0.index := by omega
    refine ⟨rfl, ?_, ?_⟩
    · intro j
      show e.handles j = _
      rw [he j, hie]
    · show e.wait_set = _
      rw [hws, hie]
  | succ fuel ih =>
    intro i e hif hi hm he hws
    rcases Nat.lt_or_ge i e0.index with hlt | hge
    · have hei : e.handles i = e0.handles i := by rw [he i, if_neg (by omega)]
      have hg : i < e.max_handles ∧ (e.handles i).initialized = true :=
        ⟨by omega, by rw [hei]; exact (hInit i (by omega)).mpr hlt⟩
      simp only [regLoop]
      rw [if_pos hg]
      split
      · rename_i heq
        have hty : (e0.handles i).type = .SUBSCRIPTION := by rw [← hei]; exact heq
        have haddok : env.add_sub_ret i = RCL_RET_OK := by
          have h := hAdd i hlt
          unfold addRet at h
          rw [hty] at h
          exact h
        have hcap : subsBefore e0 i < ws0.size_subscriptions :=
          lt_of_lt_of_le (subsBefore_lt e0 hlt hty) hSzS
        have hcall : rcl_wait_set_add_subscription env i e.wait_set =
            (RCL_RET_OK, subsBefore e0 i,
              { ws0 with sub_count := subsBefore e0 i + 1,
                         timer_count := timersBefore e0 i }) := by
          rw [hws]
          unfold rcl_wait_set_add_subscription
          rw [if_neg (by simp [haddok]), if_neg (by simp [hValid]),
            if_neg (by simp; omega)]
        rw [hcall]
        rw [if_neg (by simp)]
        refine ih (i + 1) _ (by omega) (by omega) hm ?_ ?_
        · intro j
          by_cases hj : j = i
          · subst hj
            show updFn e.handles j { e.handles j with index := subsBefore e0 j } j = _
            rw [updFn_same, hei, if_pos (by omega)]
            simp [slotOf, hty]
          · show updFn e.handles i { e.handles i with index := subsBefore e0 i } j = _
            rw [updFn_ne _ _ _ j hj, he j]
            by_cases hji : j < i
            · rw [if_pos hji, if_pos (by omega)]
            · rw [if_neg hji, if_neg (by omega)]
        · show ({ ws0 with
              sub_count := subsBefore e0 i + 1,
              timer_count := timersBefore e0 i } : rcl_wait_set_t) = _
          have h1 : subsBefore e0 (i + 1) = subsBefore e0 i + 1 := by
            rw [subsBefore_succ, if_pos hty]
          have h2 : timersBefore e0 (i + 1) = timersBefore e0 i := by
            rw [timersBefore_succ]; simp [hty]
          rw [h1, h2]
      · rename_i heq
        have hty : (e0.handles i).type = .TIMER := by rw [← hei]; exact heq
        have haddok : env.add_timer_ret i = RCL_RET_OK := by
          have h := hAdd i hlt
          unfold addRet at h
          rw [hty] at h
          exact h
        have hcap : timersBefore e0 i < ws0.size_timers :=
          lt_of_lt_of_le (timersBefore_lt e0 hlt hty) hSzT
        have hcall : rcl_wait_set_add_timer env i e.wait_set =
            (RCL_RET_OK, timersBefore e0 i,
              { ws0 with sub_count := subsBefore e0 i,
                         timer_count := timersBefore e0 i + 1 }) := by
          rw [hws]
          unfold rcl_wait_set_add_timer
          rw [if_neg (by simp [haddok]), if_neg (by simp [hValid]),
            if_neg (by simp; omega)]
        rw [hcall]
        rw [if_neg (by simp)]
        refine ih (i + 1) _ (by omega) (by omega) hm ?_ ?_
        · intro j
          by_cases hj : j = i
          · subst hj
            show updFn e.handles j { e.handles j with index := timersBefore e0 j } j = _
            rw [updFn_same, hei, if_pos (by omega)]
            simp [slotOf, hty]
          · show updFn e.handles i { e.handles i with index := timersBefore e0 i } j = _
            rw [updFn_ne _ _ _ j hj, he j]
            by_cases hji : j < i
            · rw [if_pos hji, if_pos (by omega)]
            · rw [if_neg hji, if_neg (by omega)]
        · show ({ ws0 with
              sub_count := subsBefore e0 i,
              timer_count := timersBefore e0 i + 1 } : rcl_wait_set_t) = _
          have h1 : subsBefore e0 (i + 1) = subsBefore e0 i := by
            rw [subsBefore_succ]; simp [hty]
          have h2 : timersBefore e0 (i + 1) = timersBefore e0 i + 1 := by
            rw [timersBefore_succ, if_pos hty]
          rw [h1, h2]
      · rename_i heq
        exfalso
        have hty : (e0.handles i).type = .NONE := by rw [← hei]; exact heq
        have h := hAdd i hlt
        unfold addRet at h
        rw [hty] at h
        simp [RCL_RET_ERROR, RCL_RET_OK] at h
    · have hie : i = e0.index := by omega
      have hg : ¬(i < e.max_handles ∧ (e.handles i).initialized = true) := by
        rintro ⟨h1, h2⟩
        rw [he i, if_neg (by omega)] at h2
        exact absurd ((hInit i (by omega)).mp h2) (by omega)
      simp only [regLoop]
      rw [if_neg hg]
      refine ⟨rfl, ?_, ?_⟩
      · intro j
        show e.handles j = _
        rw [he j, hie]
      · show e.wait_set = _
        rw [hws, hie]

/-- If the first failing registration sits at position `js` of the
initialized prefix, the registration loop stops there, reports that
provider error, and the (built) wait set stays valid. -/
lemma regLoop_abort (env : Env) (e0 : rcle_let_executor_t) (ws0 : rcl_wait_set_t)
    (hIdx : e0.index ≤ e0.max_handles)
    (hInit : ∀ j, j < e0.max_handles → ((e0.handles j).initialized = true ↔ j < e0.index))
    (hValid : ws0.valid = true)
    (hSzS : subsBefore e0 e0.index ≤ ws0.size_subscriptions)
    (hSzT : timersBefore e0 e0.index ≤ ws0.size_timers)
    (js : Nat) (hjs : js < e0.index)
    (hAddPre : ∀ j, j < js → addRet env e0 j = RCL_RET_OK)
    (hfail : addRet env e0 js ≠ RCL_RET_OK) :
    ∀ (fuel i : Nat) (e : rcle_let_executor_t),
      i + fuel = e0.max_handles → i ≤ js →
      e.max_handles = e0.max_handles →
      (∀ j, e.handles j =
        if j < i then { e0.handles j with index := slotOf e0 j } else e0.handles j) →
      e.wait_set = { ws0 with
        sub_count := subsBefore e0 i, timer_count := timersBefore e0 i } →
      (regLoop env e i fuel).1 = addRet env e0 js ∧
      (regLoop env e i fuel).2.wait_set.valid = true := by
  intro fuel
  induction fuel with
  | zero => intro i e hif hi hm he hws; omega
  | succ fuel ih =>
    intro i e hif hi hm he hws
    have hei : e.handles i = e0.handles i := by rw [he i, if_neg (by omega)]
    have hg : i < e.max_handles ∧ (e.handles i).initialized = true :=
      ⟨by omega, by rw [hei]; exact (hInit i (by omega)).mpr (by omega)⟩
    rcases Nat.eq_or_lt_of_le hi with hieq | hilt
    · subst hieq
      simp only [regLoop]
      rw [if_pos hg]
      split
      · rename_i heq
        have hty : (e0.handles i).type = .SUBSCRIPTION := by rw [← hei]; exact heq
        have hfa : env.add_sub_ret i ≠ RCL_RET_OK := by
          intro hc
          apply hfail
          unfold addRet
          rw [hty]
          exact hc
        have hcall : rcl_wait_set_add_subscription env i e.wait_set =
            (env.add_sub_ret i, 0, e.wait_set) := by
          unfold rcl_wait_set_add_subscription
          rw [if_pos hfa]
        rw [hcall]
        rw [if_pos (by exact hfa)]
        refine ⟨?_, ?_⟩
        · show env.add_sub_ret i = addRet env e0 i
          unfold addRet
          rw [hty]
        · show e.wait_set.valid = true
          rw [hws]
          exact hValid
      · rename_i heq
        have hty : (e0.handles i).type = .TIMER := by rw [← hei]; exact heq
        have hfa : env.add_timer_ret i ≠ RCL_RET_OK := by
          intro hc
          apply hfail
          unfold addRet
          rw [hty]
          exact hc
        have hcall : rcl_wait_set_add_timer env i e.wait_set =
            (env.add_timer_ret i, 0, e.wait_set) := by
          unfold rcl_wait_set_add_timer
          rw [if_pos hfa]
        rw [hcall]
        rw [if_pos (by exact hfa)]
        refine ⟨?_, ?_⟩
        · show env.add_timer_ret i = addRet env e0 i
          unfold addRet
          rw [hty]
        · show e.wait_set.valid = true
          rw [hws]
          exact hValid
      · rename_i heq
        have hty : (e0.handles i).type = .NONE := by rw [← hei]; exact heq
        refine ⟨?_, ?_⟩
        · show RCL_RET_ERROR = addRet env e0 i
          unfold addRet
          rw [hty]
        · show e.wait_set.valid = true
          rw [hws]
          exact hValid
    · simp only [regLoop]
      rw [if_pos hg]
      split
      · rename_i heq
        have hty : (e0.handles i).type = .SUBSCRIPTION := by rw [← hei]; exact heq
        have haddok : env.add_sub_ret i = RCL_RET_OK := by
          have h := hAddPre i hilt
          unfold addRet at h
          rw [hty] at h
          exact h
        have hcap : subsBefore e0 i < ws0.size_subscriptions :=
          lt_of_lt_of_le (subsBefore_lt e0 (by omega) hty) hSzS
        have hcall : rcl_wait_set_add_subscription env i e.wait_set =
            (RCL_RET_OK, subsBefore e0 i,
              { ws0 with sub_count := subsBefore e0 i + 1,
                         timer_count := timersBefore e0 i }) := by
          rw [hws]
          unfold rcl_wait_set_add_subscription
          rw [if_neg (by simp [haddok]), if_neg (by simp [hValid]),
            if_neg (by simp; omega)]
        rw [hcall]
        rw [if_neg (by simp)]
        refine ih (i + 1) _ (by omega) (by omega) hm ?_ ?_
        · intro j
          by_cases hj : j = i
          · subst hj
            show updFn e.handles j { e.handles j with index := subsBefore e0 j } j = _
            rw [updFn_same, hei, if_pos (by omega)]
            simp [slotOf, hty]
          · show updFn e.handles i { e.handles i with index := subsBefore e0 i } j = _
            rw [updFn_ne _ _ _ j hj, he j]
            by_cases hji : j < i
            · rw [if_pos hji, if_pos (by omega)]
            · rw [if_neg hji, if_neg (by omega)]
        · show ({ ws0 with
              sub_count := subsBefore e0 i + 1,
              timer_count := timersBefore e0 i } : rcl_wait_set_t) = _
          have h1 : subsBefore e0 (i + 1) = subsBefore e0 i + 1 := by
            rw [subsBefore_succ, if_pos hty]
          have h2 : timersBefore e0 (i + 1) = timersBefore e0 i := by
            rw [timersBefore_succ]; simp [hty]
          rw [h1, h2]
      · rename_i heq
        have hty : (e0.handles i).type = .TIMER := by rw [← hei]; exact heq
        have haddok : env.add_timer_ret i = RCL_RET_OK := by
          have h := hAddPre i hilt
          unfold addRet at h
          rw [hty] at h
          exact h
        have hcap : timersBefore e0 i < ws0.size_timers :=
          lt_of_lt_of_le (timersBefore_lt e0 (by omega) hty) hSzT
        have hcall : rcl_wait_set_add_timer env i e.wait_set =
            (RCL_RET_OK, timersBefore e0 i,
              { ws0 with sub_count := subsBefore e0 i,
                         timer_count := timersBefore e0 i + 1 }) := by
          rw [hws]
          unfold rcl_wait_set_add_timer
          rw [if_neg (by simp [haddok]), if_neg (by simp [hValid]),
            if_neg (by simp; omega)]
        rw [hcall]
        rw [if_neg (by simp)]
        refine ih (i + 1) _ (by omega) (by omega) hm ?_ ?_
        · intro j
          by_cases hj : j = i
          · subst hj
            show updFn e.handles j { e.handles j with index := timersBefore e0 j } j = _
            rw [updFn_same, hei, if_pos (by omega)]
            simp [slotOf, hty]
          · show updFn e.handles i { e.handles i with index := timersBefore e0 i } j = _
            rw [updFn_ne _ _ _ j hj, he j]
            by_cases hji : j < i
            · rw [if_pos hji, if_pos (by omega)]
            · rw [if_neg hji, if_neg (by omega)]
        · show ({ ws0 with
              sub_count := subsBefore e0 i,
              timer_count := timersBefore e0 i + 1 } : rcl_wait_set_t) = _
          have h1 : subsBefore e0 (i + 1) = subsBefore e0 i := by
            rw [subsBefore_succ]; simp [hty]
          have h2 : timersBefore e0 (i + 1) = timersBefore e0 i + 1 := by
            rw [timersBefore_succ, if_pos hty]
          rw [h1, h2]
      · rename_i heq
        exfalso
        have hty : (e0.handles i).type = .NONE := by rw [← hei]; exact heq
        have h := hAddPre i hilt
        unfold addRet at h
        rw [hty] at h
        simp [RCL_RET_ERROR, RCL_RET_OK] at h

/-! ### spin_some: unfolding equations and preservation -/

lemma CorePreserved.ws_only (e : rcle_let_executor_t) (w : rcl_wait_set_t) :
    CorePreserved e { e with wait_set := w } :=
  ⟨rfl, rfl, rfl, rfl, rfl, fun _ => rfl, fun _ => rfl, fun _ => rfl⟩

lemma spin_some_after_build_core (env : Env) (e : rcle_let_executor_t) (t : Nat) :
    CorePreserved e (spin_some_after_build env e t).exec := by
  simp only [spin_some_after_build]
  by_cases hc : (rcl_wait_set_clear e.wait_set).1 ≠ RCL_RET_OK
  · rw [if_pos hc]
    exact CorePreserved.ws_only e _
  · rw [if_neg hc]
    by_cases hr : (regLoop env { e with wait_set := (rcl_wait_set_clear e.wait_set).2 }
        0 e.max_handles).1 ≠ RCL_RET_OK
    · rw [if_pos hr]
      exact (CorePreserved.ws_only e _).trans (regLoop_core env _ 0 _)
    · rw [if_neg hr]
      have h1 : CorePreserved e
          { e with wait_set := (rcl_wait_set_clear e.wait_set).2 } :=
        CorePreserved.ws_only e _
      have h2 : CorePreserved e
          (regLoop env { e with wait_set := (rcl_wait_set_clear e.wait_set).2 }
            0 e.max_handles).2 :=
        h1.trans (regLoop_core env e.max_handles 0 _)
      have h3 : CorePreserved e
          { (regLoop env { e with wait_set := (rcl_wait_set_clear e.wait_set).2 }
              0 e.max_handles).2 with
            wait_set := (rcl_wait env
              (regLoop env { e with wait_set := (rcl_wait_set_clear e.wait_set).2 }
                0 e.max_handles).2.wait_set t).2 } :=
        h2.trans (CorePreserved.ws_only _ _)
      exact h3.trans ((scheduling_avail_only env _ _ 0).2.2)

/-- `spin_some` never changes the executor's scalar configuration fields nor
any handle's kind, policy or initialized flag. -/
lemma spin_some_core (env : Env) (e : rcle_let_executor_t) (t : Nat) :
    CorePreserved e (rcle_let_executor_spin_some env e t).exec := by
  simp only [rcle_let_executor_spin_some]
  by_cases hv : ¬ rcl_wait_set_is_valid e.wait_set = true
  · rw [if_pos hv]
    by_cases hb : (rcl_wait_set_init env e.info).1 ≠ RCL_RET_OK
    · rw [if_pos hb]
      exact ⟨rfl, rfl, rfl, rfl, rfl, fun _ => rfl, fun _ => rfl, fun _ => rfl⟩
    · rw [if_neg hb]
      exact @CorePreserved.trans e
        { e with wait_set := (rcl_wait_set_init env e.info).2 }
        ((spin_some_after_build env
          { e with wait_set := (rcl_wait_set_init env e.info).2 } t).exec)
        (CorePreserved.ws_only e _)
        (spin_some_after_build_core env _ t)
  · rw [if_neg hv]
    exact spin_some_after_build_core env e t

/-- On an absent wait set with failing construction, `spin_some` returns the
construction error and the wait set stays absent. -/
lemma spin_some_init_fail (env : Env) (e : rcle_let_executor_t) (t : Nat)
    (hNV : e.wait_set.valid = false)
    (hBad : env.wait_set_init_ret ≠ RCL_RET_OK) :
    rcle_let_executor_spin_some env e t =
      ⟨env.wait_set_init_ret,
       { e with wait_set := rcl_get_zero_initialized_wait_set }, [], [], []⟩ := by
  simp only [rcle_let_executor_spin_some, rcl_wait_set_is_valid, rcl_wait_set_init,
    hNV, hBad]
  simp [hBad]

/-- On an absent wait set with successful construction, `spin_some` proceeds
with the freshly built resource sized by the per-kind tallies. -/
lemma spin_some_invalid_build (env : Env) (e : rcle_let_executor_t) (t : Nat)
    (hNV : e.wait_set.valid = false)
    (hBuild : env.wait_set_init_ret = RCL_RET_OK) :
    rcle_let_executor_spin_some env e t =
      spin_some_after_build env
        { e with wait_set :=
            { valid := true,
              size_subscriptions := e.info.number_of_subscriptions,
              size_timers := e.info.number_of_timers,
              sub_count := 0, timer_count := 0,
              subscriptions := [], timers := [] } } t := by
  simp only [rcle_let_executor_spin_some, rcl_wait_set_is_valid, rcl_wait_set_init,
    hNV, hBuild]
  simp

/-- On a valid wait set, `spin_some` skips the rebuild. -/
lemma spin_some_valid_skip (env : Env) (e : rcle_let_executor_t) (t : Nat)
    (hV : e.wait_set.valid = true) :
    rcle_let_executor_spin_some env e t = spin_some_after_build env e t := by
  simp only [rcle_let_executor_spin_some, rcl_wait_set_is_valid, hV]
  simp

lemma spin_some_after_build_sched (env : Env) (e : rcle_let_executor_t)
    (t : Nat) (wsc : rcl_wait_set_t)
    (hclear : rcl_wait_set_clear e.wait_set = (RCL_RET_OK, wsc))
    (hreg : (regLoop env { e with wait_set := wsc } 0 e.max_handles).1 = RCL_RET_OK) :
    spin_some_after_build env e t =
      _rcle_let_scheduling env
        { (regLoop env { e with wait_set := wsc } 0 e.max_handles).2 with
          wait_set := (rcl_wait env
            (regLoop env { e with wait_set := wsc } 0 e.max_handles).2.wait_set t).2 }
        (rcl_wait env
          (regLoop env { e with wait_set := wsc } 0 e.max_handles).2.wait_set t).2 := by
  simp only [spin_some_after_build, hclear]
  simp [hreg]

lemma spin_some_after_build_regfail (env : Env) (e : rcle_let_executor_t)
    (t : Nat) (wsc : rcl_wait_set_t)
    (hclear : rcl_wait_set_clear e.wait_set = (RCL_RET_OK, wsc))
    (hreg : (regLoop env { e with wait_set := wsc } 0 e.max_handles).1 ≠ RCL_RET_OK) :
    spin_some_after_build env e t =
      ⟨(regLoop env { e with wait_set := wsc } 0 e.max_handles).1,
       (regLoop env { e with wait_set := wsc } 0 e.max_handles).2, [], [], []⟩ := by
  simp only [spin_some_after_build, hclear]
  simp [hreg]

/-- A `spin_some` that starts with an absent wait set and whose construction
and registrations succeed rebuilds a valid wait set and registers every
initialized handle afresh: the wait-set slot stored in handle i afterwards
is determined by the table alone (count of same-kind handles before i),
independent of any slot recorded before the call. -/
lemma spin_some_build_run (env : Env) (e : rcle_let_executor_t) (t : Nat)
    (hIdx : e.index ≤ e.max_handles)
    (hInit : ∀ j, j < e.max_handles → ((e.handles j).initialized = true ↔ j < e.index))
    (hAdd : ∀ j, j < e.index → addRet env e j = RCL_RET_OK)
    (hNV : e.wait_set.valid = false)
    (hBuild : env.wait_set_init_ret = RCL_RET_OK)
    (hCS : subsBefore e e.index ≤ e.info.number_of_subscriptions)
    (hCT : timersBefore e e.index ≤ e.info.number_of_timers) :
    (rcle_let_executor_spin_some env e t).exec.wait_set.valid = true ∧
    ∀ i, i < e.index →
      ((rcle_let_executor_spin_some env e t).exec.handles i).index = slotOf e i := by
  rw [spin_some_invalid_build env e t hNV hBuild]
  have hclear : rcl_wait_set_clear
      (({ e with wait_set :=
          { valid := true,
            size_subscriptions := e.info.number_of_subscriptions,
            size_timers := e.info.number_of_timers,
            sub_count := 0, timer_count := 0,
            subscriptions := [], timers := [] } } : rcle_let_executor_t)).wait_set =
      (RCL_RET_OK,
        { valid := true,
          size_subscriptions := e.info.number_of_subscriptions,
          size_timers := e.info.number_of_timers,
          sub_count := 0, timer_count := 0,
          subscriptions := [], timers := [] }) := by
    simp [rcl_wait_set_clear]
  have hrun := regLoop_run env e
    { valid := true,
      size_subscriptions := e.info.number_of_subscriptions,
      size_timers := e.info.number_of_timers,
      sub_count := 0, timer_count := 0, subscriptions := [], timers := [] }
    hIdx hInit hAdd rfl hCS hCT e.max_handles 0
    ({ e with wait_set :=
        { valid := true,
          size_subscriptions := e.info.number_of_subscriptions,
          size_timers := e.info.number_of_timers,
          sub_count := 0, timer_count := 0,
          subscriptions := [], timers := [] } } : rcle_let_executor_t)
    (by omega) (by omega) rfl
    (fun j => by rw [if_neg (by omega)])
    (by simp [subsBefore, timersBefore])
  rw [spin_some_after_build_sched env
    ({ e with wait_set :=
        { valid := true,
          size_subscriptions := e.info.number_of_subscriptions,
          size_timers := e.info.number_of_timers,
          sub_count := 0, timer_count := 0,
          subscriptions := [], timers := [] } } : rcle_let_executor_t) t
    { valid := true,
      size_subscriptions := e.info.number_of_subscriptions,
      size_timers := e.info.number_of_timers,
      sub_count := 0, timer_count := 0, subscriptions := [], timers := [] }
    hclear hrun.1]
  refine ⟨?_, ?_⟩
  · show (_rcle_let_scheduling env
      { (regLoop env
          ({ e with wait_set :=
              { valid := true,
                size_subscriptions := e.info.number_of_subscriptions,
                size_timers := e.info.number_of_timers,
                sub_count := 0, timer_count := 0,
                subscriptions := [], timers := [] } } : rcle_let_executor_t)
          0 e.max_handles).2 with
        wait_set := (rcl_wait env (regLoop env
          ({ e with wait_set :=
              { valid := true,
                size_subscriptions := e.info.number_of_subscriptions,
                size_timers := e.info.number_of_timers,
                sub_count := 0, timer_count := 0,
                subscriptions := [], timers := [] } } : rcle_let_executor_t)
          0 e.max_handles).2.wait_set t).2 }
      (rcl_wait env (regLoop env
        ({ e with wait_set :=
            { valid := true,
              size_subscriptions := e.info.number_of_subscriptions,
              size_timers := e.info.number_of_timers,
              sub_count := 0, timer_count := 0,
              subscriptions := [], timers := [] } } : rcle_let_executor_t)
        0 e.max_handles).2.wait_set t).2).exec.wait_set.valid = true
    rw [(scheduling_avail_only env _ _ 0).2.1]
    show (rcl_wait env (regLoop env
        ({ e with wait_set :=
            { valid := true,
              size_subscriptions := e.info.number_of_subscriptions,
              size_timers := e.info.number_of_timers,
              sub_count := 0, timer_count := 0,
              subscriptions := [], timers := [] } } : rcle_let_executor_t)
        0 e.max_handles).2.wait_set t).2.valid = true
    rw [hrun.2.2]
    simp [rcl_wait]
  · intro i hi
    obtain ⟨b, hb⟩ := (scheduling_avail_only env
      { (regLoop env
          ({ e with wait_set :=
              { valid := true,
                size_subscriptions := e.info.number_of_subscriptions,
                size_timers := e.info.number_of_timers,
                sub_count := 0, timer_count := 0,
                subscriptions := [], timers := [] } } : rcle_let_executor_t)
          0 e.max_handles).2 with
        wait_set := (rcl_wait env (regLoop env
          ({ e with wait_set :=
              { valid := true,
                size_subscriptions := e.info.number_of_subscriptions,
                size_timers := e.info.number_of_timers,
                sub_count := 0, timer_count := 0,
                subscriptions := [], timers := [] } } : rcle_let_executor_t)
          0 e.max_handles).2.wait_set t).2 }
      (rcl_wait env (regLoop env
        ({ e with wait_set :=
            { valid := true,
              size_subscriptions := e.info.number_of_subscriptions,
              size_timers := e.info.number_of_timers,
              sub_count := 0, timer_count := 0,
              subscriptions := [], timers := [] } } : rcle_let_executor_t)
        0 e.max_handles).2.wait_set t).2 i).1
    rw [hb]
    show ((regLoop env
        ({ e with wait_set :=
            { valid := true,
              size_subscriptions := e.info.number_of_subscriptions,
              size_timers := e.info.number_of_timers,
              sub_count := 0, timer_count := 0,
              subscriptions := [], timers := [] } } : rcle_let_executor_t)
        0 e.max_handles).2.handles i).index = slotOf e i
    rw [hrun.2.1 i, if_pos hi]

/-- A `spin_some` that rebuilds the wait set but meets a failing
registration returns the provider's reported error to the caller; the
freshly built wait set, however, remains in the valid state. -/
lemma spin_some_build_regfail (env : Env) (e : rcle_let_executor_t) (t : Nat)
    (hIdx : e.index ≤ e.max_handles)
    (hInit : ∀ j, j < e.max_handles → ((e.handles j).initialized = true ↔ j < e.index))
    (hNV : e.wait_set.valid = false)
    (hBuild : env.wait_set_init_ret = RCL_RET_OK)
    (hCS : subsBefore e e.index ≤ e.info.number_of_subscriptions)
    (hCT : timersBefore e e.index ≤ e.info.number_of_timers)
    (js : Nat) (hjs : js < e.index)
    (hAddPre : ∀ j, j < js → addRet env e j = RCL_RET_OK)
    (hfail : addRet env e js ≠ RCL_RET_OK) :
    (rcle_let_executor_spin_some env e t).rc = addRet env e js ∧
    (rcle_let_executor_spin_some env e t).exec.wait_set.valid = true := by
  rw [spin_some_invalid_build env e t hNV hBuild]
  have hclear : rcl_wait_set_clear
      (({ e with wait_set :=
          { valid := true,
            size_subscriptions := e.info.number_of_subscriptions,
            size_timers := e.info.number_of_timers,
            sub_count := 0, timer_count := 0,
            subscriptions := [], timers := [] } } : rcle_let_executor_t)).wait_set =
      (RCL_RET_OK,
        { valid := true,
          size_subscriptions := e.info.number_of_subscriptions,
          size_timers := e.info.number_of_timers,
          sub_count := 0, timer_count := 0,
          subscriptions := [], timers := [] }) := by
    simp [rcl_wait_set_clear]
  have habort := regLoop_abort env e
    { valid := true,
      size_subscriptions := e.info.number_of_subscriptions,
      size_timers := e.info.number_of_timers,
      sub_count := 0, timer_count := 0, subscriptions := [], timers := [] }
    hIdx hInit rfl hCS hCT js hjs hAddPre hfail e.max_handles 0
    ({ e with wait_set :=
        { valid := true,
          size_subscriptions := e.info.number_of_subscriptions,
          size_timers := e.info.number_of_timers,
          sub_count := 0, timer_count := 0,
          subscriptions := [], timers := [] } } : rcle_let_executor_t)
    (by omega) (by omega) rfl
    (fun j => by rw [if_neg (by omega)])
    (by simp [subsBefore, timersBefore])
  have hne : (regLoop env
      ({ e with wait_set :=
          { valid := true,
            size_subscriptions := e.info.number_of_subscriptions,
            size_timers := e.info.number_of_timers,
            sub_count := 0, timer_count := 0,
            subscriptions := [], timers := [] } } : rcle_let_executor_t)
      0 e.max_handles).1 ≠ RCL_RET_OK := by
    rw [habort.1]
    exact hfail
  rw [spin_some_after_build_regfail env
    ({ e with wait_set :=
        { valid := true,
          size_subscriptions := e.info.number_of_subscriptions,
          size_timers := e.info.number_of_timers,
          sub_count := 0, timer_count := 0,
          subscriptions := [], timers := [] } } : rcle_let_executor_t) t
    { valid := true,
      size_subscriptions := e.info.number_of_subscriptions,
      size_timers := e.info.number_of_timers,
      sub_count := 0, timer_count := 0, subscriptions := [], timers := [] }
    hclear hne]
  exact ⟨habort.1, habort.2⟩

/-- A `spin_some` that starts with a VALID wait set (for example, the one a
failed registration left behind) skips the rebuild but still clears the set
and re-registers every initialized handle before waiting: afterwards the
wait-set slot stored in handle i is again the freshly assigned one (the
count of same-kind handles before it in the table), independent of whatever
registration state the previous round left. -/
lemma spin_some_valid_run (env : Env) (e : rcle_let_executor_t) (t : Nat)
    (hIdx : e.index ≤ e.max_handles)
    (hInit : ∀ j, j < e.max_handles → ((e.handles j).initialized = true ↔ j < e.index))
    (hAdd : ∀ j, j < e.index → addRet env e j = RCL_RET_OK)
    (hV : e.wait_set.valid = true)
    (hCS : subsBefore e e.index ≤ e.wait_set.size_subscriptions)
    (hCT : timersBefore e e.index ≤ e.wait_set.size_timers) :
    (rcle_let_executor_spin_some env e t).exec.wait_set.valid = true ∧
    ∀ i, i < e.index →
      ((rcle_let_executor_spin_some env e t).exec.handles i).index = slotOf e i := by
  rw [spin_some_valid_skip env e t hV]
  have hclear : rcl_wait_set_clear e.wait_set =
      (RCL_RET_OK, { e.wait_set with
        sub_count := 0, timer_count := 0, subscriptions := [], timers := [] }) := by
    simp [rcl_wait_set_clear, hV]
  have hrun := regLoop_run env e
    { e.wait_set with
      sub_count := 0, timer_count := 0, subscriptions := [], timers := [] }
    hIdx hInit hAdd hV hCS hCT e.max_handles 0
    ({ e with wait_set := { e.wait_set with
        sub_count := 0, timer_count := 0, subscriptions := [], timers := [] } } :
      rcle_let_executor_t)
    (by omega) (by omega) rfl
    (fun j => by rw [if_neg (by omega)])
    (by simp [subsBefore, timersBefore])
  rw [spin_some_after_build_sched env e t
    { e.wait_set with
      sub_count := 0, timer_count := 0, subscriptions := [], timers := [] }
    hclear hrun.1]
  refine ⟨?_, ?_⟩
  · show (_rcle_let_scheduling env
      { (regLoop env ({ e with wait_set := { e.wait_set with
          sub_count := 0, timer_count := 0, subscriptions := [], timers := [] } } :
            rcle_let_executor_t) 0 e.max_handles).2 with
        wait_set := (rcl_wait env (regLoop env ({ e with wait_set := { e.wait_set with
          sub_count := 0, timer_count := 0, subscriptions := [], timers := [] } } :
            rcle_let_executor_t) 0 e.max_handles).2.wait_set t).2 }
      (rcl_wait env (regLoop env ({ e with wait_set := { e.wait_set with
          sub_count := 0, timer_count := 0, subscriptions := [], timers := [] } } :
            rcle_let_executor_t) 0 e.max_handles).2.wait_set t).2).exec.wait_set.valid = true
    rw [(scheduling_avail_only env _ _ 0).2.1]
    show (rcl_wait env (regLoop env ({ e with wait_set := { e.wait_set with
        sub_count := 0, timer_count := 0, subscriptions := [], timers := [] } } :
          rcle_let_executor_t) 0 e.max_handles).2.wait_set t).2.valid = true
    rw [hrun.2.2]
    simp [rcl_wait, hV]
  · intro i hi
    obtain ⟨b, hb⟩ := (scheduling_avail_only env
      { (regLoop env ({ e with wait_set := { e.wait_set with
          sub_count := 0, timer_count := 0, subscriptions := [], timers := [] } } :
            rcle_let_executor_t) 0 e.max_handles).2 with
        wait_set := (rcl_wait env (regLoop env ({ e with wait_set := { e.wait_set with
          sub_count := 0, timer_count := 0, subscriptions := [], timers := [] } } :
            rcle_let_executor_t) 0 e.max_handles).2.wait_set t).2 }
      (rcl_wait env (regLoop env ({ e with wait_set := { e.wait_set with
          sub_count := 0, timer_count := 0, subscriptions := [], timers := [] } } :
            rcle_let_executor_t) 0 e.max_handles).2.wait_set t).2 i).1
    rw [hb]
    show ((regLoop env ({ e with wait_set := { e.wait_set with
        sub_count := 0, timer_count := 0, subscriptions := [], timers := [] } } :
          rcle_let_executor_t) 0 e.max_handles).2.handles i).index = slotOf e i
    rw [hrun.2.1 i, if_pos hi]

/-! ### Scheduling round: assembled equations -/

lemma scheduling_run_eq (env : Env) (e : rcle_let_executor_t) (ws : rcl_wait_set_t)
    (h : (phase1_aux env ws e RCL_RET_OK 0 e.max_handles).early = false) :
    _rcle_let_scheduling env e ws =
      ⟨(phase2_aux env (phase1_aux env ws e RCL_RET_OK 0 e.max_handles).exec
          (phase1_aux env ws e RCL_RET_OK 0 e.max_handles).rc 0
          (phase1_aux env ws e RCL_RET_OK 0 e.max_handles).exec.max_handles).rc,
       (phase1_aux env ws e RCL_RET_OK 0 e.max_handles).exec,
       (phase1_aux env ws e RCL_RET_OK 0 e.max_handles).vis,
       (phase2_aux env (phase1_aux env ws e RCL_RET_OK 0 e.max_handles).exec
          (phase1_aux env ws e RCL_RET_OK 0 e.max_handles).rc 0
          (phase1_aux env ws e RCL_RET_OK 0 e.max_handles).exec.max_handles).vis,
       (phase2_aux env (phase1_aux env ws e RCL_RET_OK 0 e.max_handles).exec
          (phase1_aux env ws e RCL_RET_OK 0 e.max_handles).rc 0
          (phase1_aux env ws e RCL_RET_OK 0 e.max_handles).exec.max_handles).events⟩ := by
  simp only [_rcle_let_scheduling, h]
  simp

lemma scheduling_abort_eq (env : Env) (e : rcle_let_executor_t) (ws : rcl_wait_set_t)
    (h : (phase1_aux env ws e RCL_RET_OK 0 e.max_handles).early = true) :
    _rcle_let_scheduling env e ws =
      ⟨(phase1_aux env ws e RCL_RET_OK 0 e.max_handles).rc,
       (phase1_aux env ws e RCL_RET_OK 0 e.max_handles).exec,
       (phase1_aux env ws e RCL_RET_OK 0 e.max_handles).vis, [], []⟩ := by
  simp only [_rcle_let_scheduling, h]
  simp

/-! ### The two add operations: full characterization -/

lemma add_subscription_full (e : rcle_let_executor_t) (s m cb : Nat)
    (inv : rcle_invocation_t) (hcap : e.max_handles ≤ e.index) :
    rcle_let_executor_add_subscription e (some s) (some m) (some cb) inv =
      (RCL_RET_ERROR, e) := by
  simp only [rcle_let_executor_add_subscription]
  rw [if_pos hcap]

lemma add_timer_full (e : rcle_let_executor_t) (tm : Nat)
    (hcap : e.max_handles ≤ e.index) :
    rcle_let_executor_add_timer e (some tm) = (RCL_RET_ERROR, e) := by
  simp only [rcle_let_executor_add_timer]
  rw [if_pos hcap]

lemma add_subscription_ok (e : rcle_let_executor_t) (s m cb : Nat)
    (inv : rcle_invocation_t) (hcap : ¬ e.max_handles ≤ e.index) :
    rcle_let_executor_add_subscription e (some s) (some m) (some cb) inv =
      (RCL_RET_OK,
       { e with
         handles := updFn e.handles e.index
           { e.handles e.index with
             type := .SUBSCRIPTION, subscription := s, data := m,
             callback := cb, invocation := inv, initialized := true },
         index := e.index + 1,
         wait_set := if e.wait_set.valid = true then rcl_get_zero_initialized_wait_set
           else e.wait_set,
         info := { e.info with
           number_of_subscriptions := e.info.number_of_subscriptions + 1 } }) := by
  simp only [rcle_let_executor_add_subscription]
  rw [if_neg hcap]
  by_cases hv : e.wait_set.valid = true <;>
    simp [rcl_wait_set_is_valid, rcl_wait_set_fini, hv]

lemma add_timer_ok (e : rcle_let_executor_t) (tm : Nat)
    (hcap : ¬ e.max_handles ≤ e.index) :
    rcle_let_executor_add_timer e (some tm) =
      (RCL_RET_OK,
       { e with
         handles := updFn e.handles e.index
           { e.handles e.index with
             type := .TIMER, timer := tm, invocation := .ON_NEW_DATA,
             initialized := true },
         index := e.index + 1,
         wait_set := if e.wait_set.valid = true then rcl_get_zero_initialized_wait_set
           else e.wait_set,
         info := { e.info with
           number_of_timers := e.info.number_of_timers + 1 } }) := by
  simp only [rcle_let_executor_add_timer]
  rw [if_neg hcap]
  by_cases hv : e.wait_set.valid = true <;>
    simp [rcl_wait_set_is_valid, rcl_wait_set_fini, hv]

/-! ### Timer handles always carry the ON_NEW_DATA policy -/

lemma timersOnNewData_core {e e' : rcle_let_executor_t}
    (hc : CorePreserved e e') (h : timersOnNewData e) : timersOnNewData e' := by
  intro j hj
  rw [hc.invocation_eq j]
  exact h j (by rw [← hc.type_eq j]; exact hj)

lemma timersOnNewData_applyOp (e : rcle_let_executor_t) (op : Op)
    (h : timersOnNewData e) : timersOnNewData (applyOp e op) := by
  cases op with
  | addSubscription s m cb inv =>
    cases s with
    | none => exact h
    | some s =>
      cases m with
      | none => exact h
      | some m =>
        cases cb with
        | none => exact h
        | some cb =>
          show timersOnNewData (rcle_let_executor_add_subscription e
            (some s) (some m) (some cb) inv).2
          by_cases hcap : e.max_handles ≤ e.index
          · rw [add_subscription_full e s m cb inv hcap]
            exact h
          · rw [add_subscription_ok e s m cb inv hcap]
            intro j hj
            by_cases hje : j = e.index
            · subst hje
              simp [updFn] at hj
            · simp [updFn, hje] at hj ⊢
              exact h j hj
  | addTimer tm =>
    cases tm with
    | none => exact h
    | some tm =>
      show timersOnNewData (rcle_let_executor_add_timer e (some tm)).2
      by_cases hcap : e.max_handles ≤ e.index
      · rw [add_timer_full e tm hcap]
        exact h
      · rw [add_timer_ok e tm hcap]
        intro j hj
        by_cases hje : j = e.index
        · subst hje
          simp [updFn]
        · simp [updFn, hje] at hj ⊢
          exact h j hj
  | setTimeout t =>
    show timersOnNewData (rcle_let_executor_set_timeout e t).2
    unfold rcle_let_executor_set_timeout
    by_cases hv : _rcle_let_executor_is_valid e = true
    · rw [if_pos hv]
      exact h
    · rw [if_neg hv]
      exact h
  | spinSome env t =>
    exact timersOnNewData_core (spin_some_core env e t) h

lemma timersOnNewData_applyOps (e : rcle_let_executor_t) (ops : List Op)
    (h : timersOnNewData e) : timersOnNewData (applyOps e ops) := by
  induction ops generalizing e with
  | nil => exact h
  | cons op ops ih => exact ih (applyOp e op) (timersOnNewData_applyOp e op h)

/-! ### The claims -/

/-- Claim C1: in every scheduling round, both the intake phase and the
execution phase iterate over exactly the initialized prefix of the handle
table in index order; for every executor (well-formed table) and every
readiness pattern (any oracle whose intake outcomes are non-fatal and whose
timer calls succeed), the sequence of handles considered for callback
invocation in phase 2 is `0, 1, ..., index-1` — the registration order. -/
theorem c1_scheduling_order (env : Env) (e : rcle_let_executor_t)
    (ws : rcl_wait_set_t)
    (hIdx : e.index ≤ e.max_handles)
    (hInit : ∀ j, j < e.max_handles → ((e.handles j).initialized = true ↔ j < e.index))
    (hType : ∀ j, j < e.index → (e.handles j).type ≠ .NONE)
    (hNF : ∀ j, j < e.index → intakeNonfatal env ws (e.handles j) j)
    (hTC : ∀ j, j < e.index → env.timer_call_ret j = RCL_RET_OK) :
    (_rcle_let_scheduling env e ws).vis1 = List.range e.index ∧
    (_rcle_let_scheduling env e ws).vis2 = List.range e.index := by
  have hp1 := phase1_aux_run env ws e hIdx hInit e.max_handles 0 e RCL_RET_OK
    (by omega) (by omega) rfl (fun j => by rw [if_neg (by omega)])
    (fun j _ hj => hNF j hj)
  rw [scheduling_run_eq env e ws hp1.1]
  have hc := phase1_aux_core env ws e.max_handles 0 e RCL_RET_OK
  constructor
  · show (phase1_aux env ws e RCL_RET_OK 0 e.max_handles).vis = _
    rw [hp1.2.2, Nat.sub_zero, List.range_eq_range']
  · have hIdx1 : (phase1_aux env ws e RCL_RET_OK 0 e.max_handles).exec.index ≤
        (phase1_aux env ws e RCL_RET_OK 0 e.max_handles).exec.max_handles := by
      rw [hc.index_eq, hc.max_eq]; exact hIdx
    have hInit1 : ∀ j, j < (phase1_aux env ws e RCL_RET_OK 0 e.max_handles).exec.max_handles →
        (((phase1_aux env ws e RCL_RET_OK 0 e.max_handles).exec.handles j).initialized = true ↔
          j < (phase1_aux env ws e RCL_RET_OK 0 e.max_handles).exec.index) := by
      intro j hj
      rw [hc.init_eq j, hc.index_eq]
      exact hInit j (by rw [← hc.max_eq]; exact hj)
    have hOk : ∀ j, j < (phase1_aux env ws e RCL_RET_OK 0 e.max_handles).exec.index →
        (execOne env ((phase1_aux env ws e RCL_RET_OK 0 e.max_handles).exec.handles j) j).1 =
          RCL_RET_OK := by
      intro j hj
      have hj' : j < e.index := by rw [← hc.index_eq]; exact hj
      exact execOne_rc_ok env _ j (by rw [hc.type_eq j]; exact hType j hj') (hTC j hj')
    have hp2 := phase2_aux_run env _ hIdx1 hInit1 hOk
      (phase1_aux env ws e RCL_RET_OK 0 e.max_handles).exec.max_handles 0
      (phase1_aux env ws e RCL_RET_OK 0 e.max_handles).rc (by omega) (by omega)
    show (phase2_aux env (phase1_aux env ws e RCL_RET_OK 0 e.max_handles).exec
        (phase1_aux env ws e RCL_RET_OK 0 e.max_handles).rc 0
        (phase1_aux env ws e RCL_RET_OK 0 e.max_handles).exec.max_handles).vis = _
    rw [hp2.1, Nat.sub_zero, hc.index_eq, List.range_eq_range']

/-- Witness for C1 at a concrete two-handle executor with both sources
ready: both phases consider handles 0 and 1 in registration order. -/
theorem c1_scheduling_order_witness :
    (_rcle_let_scheduling demo_env demo_exec demo_ws).vis1 = [0, 1] ∧
    (_rcle_let_scheduling demo_env demo_exec demo_ws).vis2 = [0, 1] := by
  have h := c1_scheduling_order demo_env demo_exec demo_ws
    (by decide) (by decide) (by decide) (by decide) (by decide)
  exact ⟨by rw [h.1]; decide, by rw [h.2]; decide⟩

/-- Claim C2: for every initialized handle of a round's phase 2, its
callback is invoked iff its invocation policy is Always, or its policy is
OnNewData and its `data_available` flag was set true during that same
round's intake phase (the flag of the round's post-intake executor
`(_rcle_let_scheduling …).exec`); the invoked handles are listed in table
order, and in particular every Always handle is invoked in every round. -/
theorem c2_invocation_policy (env : Env) (e : rcle_let_executor_t)
    (ws : rcl_wait_set_t)
    (hIdx : e.index ≤ e.max_handles)
    (hInit : ∀ j, j < e.max_handles → ((e.handles j).initialized = true ↔ j < e.index))
    (hType : ∀ j, j < e.index → (e.handles j).type ≠ .NONE)
    (hNF : ∀ j, j < e.index → intakeNonfatal env ws (e.handles j) j)
    (hTC : ∀ j, j < e.index → env.timer_call_ret j = RCL_RET_OK) :
    ((_rcle_let_scheduling env e ws).events).map eventIndex =
      (List.range e.index).filter
        (fun j => spec_should_invoke ((_rcle_let_scheduling env e ws).exec.handles j)) ∧
    ∀ j, j < e.index → (e.handles j).invocation = .ALWAYS →
      j ∈ ((_rcle_let_scheduling env e ws).events).map eventIndex := by
  have hp1 := phase1_aux_run env ws e hIdx hInit e.max_handles 0 e RCL_RET_OK
    (by omega) (by omega) rfl (fun j => by rw [if_neg (by omega)])
    (fun j _ hj => hNF j hj)
  have hc := phase1_aux_core env ws e.max_handles 0 e RCL_RET_OK
  have hIdx1 : (phase1_aux env ws e RCL_RET_OK 0 e.max_handles).exec.index ≤
      (phase1_aux env ws e RCL_RET_OK 0 e.max_handles).exec.max_handles := by
    rw [hc.index_eq, hc.max_eq]; exact hIdx
  have hInit1 : ∀ j, j < (phase1_aux env ws e RCL_RET_OK 0 e.max_handles).exec.max_handles →
      (((phase1_aux env ws e RCL_RET_OK 0 e.max_handles).exec.handles j).initialized = true ↔
        j < (phase1_aux env ws e RCL_RET_OK 0 e.max_handles).exec.index) := by
    intro j hj
    rw [hc.init_eq j, hc.index_eq]
    exact hInit j (by rw [← hc.max_eq]; exact hj)
  have hOk : ∀ j, j < (phase1_aux env ws e RCL_RET_OK 0 e.max_handles).exec.index →
      (execOne env ((phase1_aux env ws e RCL_RET_OK 0 e.max_handles).exec.handles j) j).1 =
        RCL_RET_OK := by
    intro j hj
    have hj' : j < e.index := by rw [← hc.index_eq]; exact hj
    exact execOne_rc_ok env _ j (by rw [hc.type_eq j]; exact hType j hj') (hTC j hj')
  have hp2 := phase2_aux_run env _ hIdx1 hInit1 hOk
    (phase1_aux env ws e RCL_RET_OK 0 e.max_handles).exec.max_handles 0
    (phase1_aux env ws e RCL_RET_OK 0 e.max_handles).rc (by omega) (by omega)
  rw [scheduling_run_eq env e ws hp1.1]
  have hmain : (phase2_aux env (phase1_aux env ws e RCL_RET_OK 0 e.max_handles).exec
      (phase1_aux env ws e RCL_RET_OK 0 e.max_handles).rc 0
      (phase1_aux env ws e RCL_RET_OK 0 e.max_handles).exec.max_handles).events.map eventIndex =
      (List.range e.index).filter
        (fun j => spec_should_invoke
          ((phase1_aux env ws e RCL_RET_OK 0 e.max_handles).exec.handles j)) := by
    rw [hp2.2, Nat.sub_zero, hc.index_eq, List.range_eq_range']
  constructor
  · exact hmain
  · intro j hj hinv
    show j ∈ (phase2_aux env (phase1_aux env ws e RCL_RET_OK 0 e.max_handles).exec
      (phase1_aux env ws e RCL_RET_OK 0 e.max_handles).rc 0
      (phase1_aux env ws e RCL_RET_OK 0 e.max_handles).exec.max_handles).events.map eventIndex
    rw [hmain]
    rw [List.mem_filter]
    refine ⟨List.mem_range.mpr hj, ?_⟩
    have hinv1 : ((phase1_aux env ws e RCL_RET_OK 0 e.max_handles).exec.handles j).invocation =
        .ALWAYS := by
      rw [hc.invocation_eq j]; exact hinv
    simp [spec_should_invoke, hinv1]

/-- Witness for C2 at the concrete two-handle executor with both sources
ready: both handles have fresh data, so both are invoked, and handle 1's
policy being OnNewData with data available puts it in the invoked list. -/
theorem c2_invocation_policy_witness :
    ((_rcle_let_scheduling demo_env demo_exec demo_ws).events).map eventIndex = [0, 1] ∧
    ((_rcle_let_scheduling demo_env demo_exec demo_ws).exec.handles 1).data_available = true := by
  have h := c2_invocation_policy demo_env demo_exec demo_ws
    (by decide) (by decide) (by decide) (by decide) (by decide)
  exact ⟨by rw [h.1]; decide, by decide⟩

/-- A round whose intake outcomes are all non-fatal and whose callbacks all
succeed: visits, per-handle data_available outcomes and invoked handles. -/
lemma scheduling_full_round (env : Env) (e : rcle_let_executor_t)
    (ws : rcl_wait_set_t)
    (hIdx : e.index ≤ e.max_handles)
    (hInit : ∀ j, j < e.max_handles → ((e.handles j).initialized = true ↔ j < e.index))
    (hType : ∀ j, j < e.index → (e.handles j).type ≠ .NONE)
    (hNF : ∀ j, j < e.index → intakeNonfatal env ws (e.handles j) j)
    (hTC : ∀ j, j < e.index → env.timer_call_ret j = RCL_RET_OK) :
    (_rcle_let_scheduling env e ws).vis1 = List.range e.index ∧
    (_rcle_let_scheduling env e ws).vis2 = List.range e.index ∧
    ∀ i, i < e.index → (_rcle_let_scheduling env e ws).exec.handles i =
      { e.handles i with data_available := (intakeResult env ws (e.handles i) i).2 } := by
  have hp1 := phase1_aux_run env ws e hIdx hInit e.max_handles 0 e RCL_RET_OK
    (by omega) (by omega) rfl (fun j => by rw [if_neg (by omega)])
    (fun j _ hj => hNF j hj)
  have hc := phase1_aux_core env ws e.max_handles 0 e RCL_RET_OK
  rw [scheduling_run_eq env e ws hp1.1]
  refine ⟨?_, ?_, ?_⟩
  · show (phase1_aux env ws e RCL_RET_OK 0 e.max_handles).vis = _
    rw [hp1.2.2, Nat.sub_zero, List.range_eq_range']
  · have hIdx1 : (phase1_aux env ws e RCL_RET_OK 0 e.max_handles).exec.index ≤
        (phase1_aux env ws e RCL_RET_OK 0 e.max_handles).exec.max_handles := by
      rw [hc.index_eq, hc.max_eq]; exact hIdx
    have hInit1 : ∀ j, j < (phase1_aux env ws e RCL_RET_OK 0 e.max_handles).exec.max_handles →
        (((phase1_aux env ws e RCL_RET_OK 0 e.max_handles).exec.handles j).initialized = true ↔
          j < (phase1_aux env ws e RCL_RET_OK 0 e.max_handles).exec.index) := by
      intro j hj
      rw [hc.init_eq j, hc.index_eq]
      exact hInit j (by rw [← hc.max_eq]; exact hj)
    have hOk : ∀ j, j < (phase1_aux env ws e RCL_RET_OK 0 e.max_handles).exec.index →
        (execOne env ((phase1_aux env ws e RCL_RET_OK 0 e.max_handles).exec.handles j) j).1 =
          RCL_RET_OK := by
      intro j hj
      have hj' : j < e.index := by rw [← hc.index_eq]; exact hj
      exact execOne_rc_ok env _ j (by rw [hc.type_eq j]; exact hType j hj') (hTC j hj')
    have hp2 := phase2_aux_run env _ hIdx1 hInit1 hOk
      (phase1_aux env ws e RCL_RET_OK 0 e.max_handles).exec.max_handles 0
      (phase1_aux env ws e RCL_RET_OK 0 e.max_handles).rc (by omega) (by omega)
    show (phase2_aux env (phase1_aux env ws e RCL_RET_OK 0 e.max_handles).exec
        (phase1_aux env ws e RCL_RET_OK 0 e.max_handles).rc 0
        (phase1_aux env ws e RCL_RET_OK 0 e.max_handles).exec.max_handles).vis = _
    rw [hp2.1, Nat.sub_zero, hc.index_eq, List.range_eq_range']
  · intro i hi
    show (phase1_aux env ws e RCL_RET_OK 0 e.max_handles).exec.handles i = _
    rw [hp1.2.1 i, if_pos hi]

/-- Claim C3: during phase 1, for a subscription handle whose wait-set slot
is ready, (1) a no-data fetch returns the transient code and leaves
`data_available` false; (2) a successful fetch sets `data_available` true;
(3) within a round meeting a no-data fetch, the handle ends with
`data_available` false and the round still visits every handle in both
phases; (4) any other fetch failure makes the round return that error to
the caller before phase 2 runs. -/
theorem c3_subscription_intake :
    (∀ (env : Env) (e : rcle_let_executor_t) (ws : rcl_wait_set_t) (i : Nat),
      (e.handles i).type = .SUBSCRIPTION →
      ws.subscriptions.getD (e.handles i).index false = true →
      env.take_ret i = RCL_RET_SUBSCRIPTION_TAKE_FAILED →
      _rcle_read_input_data env e ws i =
        (RCL_RET_SUBSCRIPTION_TAKE_FAILED, setAvail e i false)) ∧
    (∀ (env : Env) (e : rcle_let_executor_t) (ws : rcl_wait_set_t) (i : Nat),
      (e.handles i).type = .SUBSCRIPTION →
      ws.subscriptions.getD (e.handles i).index false = true →
      env.take_ret i = RCL_RET_OK →
      _rcle_read_input_data env e ws i = (RCL_RET_OK, setAvail e i true)) ∧
    (∀ (env : Env) (e : rcle_let_executor_t) (ws : rcl_wait_set_t),
      e.index ≤ e.max_handles →
      (∀ j, j < e.max_handles → ((e.handles j).initialized = true ↔ j < e.index)) →
      (∀ j, j < e.index → (e.handles j).type ≠ .NONE) →
      (∀ j, j < e.index → intakeNonfatal env ws (e.handles j) j) →
      (∀ j, j < e.index → env.timer_call_ret j = RCL_RET_OK) →
      ∀ i, i < e.index →
        (e.handles i).type = .SUBSCRIPTION →
        env.take_ret i = RCL_RET_SUBSCRIPTION_TAKE_FAILED →
        ((_rcle_let_scheduling env e ws).exec.handles i).data_available = false ∧
        (_rcle_let_scheduling env e ws).vis1 = List.range e.index ∧
        (_rcle_let_scheduling env e ws).vis2 = List.range e.index) ∧
    (∀ (env : Env) (e : rcle_let_executor_t) (ws : rcl_wait_set_t),
      e.index ≤ e.max_handles →
      (∀ j, j < e.max_handles → ((e.handles j).initialized = true ↔ j < e.index)) →
      ∀ i, i < e.index →
        (e.handles i).type = .SUBSCRIPTION →
        ws.subscriptions.getD (e.handles i).index false = true →
        env.take_ret i ≠ RCL_RET_OK →
        env.take_ret i ≠ RCL_RET_SUBSCRIPTION_TAKE_FAILED →
        (∀ k, k < i → intakeNonfatal env ws (e.handles k) k) →
        (_rcle_let_scheduling env e ws).rc = env.take_ret i ∧
        (_rcle_let_scheduling env e ws).vis2 = [] ∧
        (_rcle_let_scheduling env e ws).events = []) := by
  refine ⟨?_, ?_, ?_, ?_⟩
  · intro env e ws i hty hready htf
    have hr : intakeResult env ws (e.handles i) i =
        (RCL_RET_SUBSCRIPTION_TAKE_FAILED, false) := by
      simp only [intakeResult, hty]
      rw [if_pos hready, htf, if_pos (by decide)]
    simp [_rcle_read_input_data, hr]
  · intro env e ws i hty hready hok
    have hr : intakeResult env ws (e.handles i) i = (RCL_RET_OK, true) := by
      simp only [intakeResult, hty]
      rw [if_pos hready, hok, if_neg (by simp)]
    simp [_rcle_read_input_data, hr]
  · intro env e ws hIdx hInit hType hNF hTC i hi hty htf
    have h := scheduling_full_round env e ws hIdx hInit hType hNF hTC
    refine ⟨?_, h.1, h.2.1⟩
    rw [h.2.2 i hi]
    show (intakeResult env ws (e.handles i) i).2 = false
    simp only [intakeResult, hty]
    by_cases hready : ws.subscriptions.getD (e.handles i).index false = true
    · rw [if_pos hready, htf, if_pos (by decide)]
    · rw [if_neg hready]
  · intro env e ws hIdx hInit i hi hty hready hno hnot hpre
    have hr : intakeResult env ws (e.handles i) i = (env.take_ret i, false) := by
      simp only [intakeResult, hty]
      rw [if_pos hready, if_pos hno]
    have habort := phase1_aux_abort env ws e hIdx hInit i hi
      (by rw [hr]; exact ⟨hno, hnot⟩) e.max_handles 0 e RCL_RET_OK
      (by omega) (by omega) rfl (fun j _ => rfl) (fun j _ hj => hpre j hj)
    rw [scheduling_abort_eq env e ws habort.1]
    refine ⟨?_, rfl, rfl⟩
    show (phase1_aux env ws e RCL_RET_OK 0 e.max_handles).rc = env.take_ret i
    rw [habort.2, hr]

/-- Witness for C3: at the concrete executor, a no-data fetch (oracle
`c3_env`) leaves handle 0 without data while the round still executes both
handles of phase 2; a fatal fetch failure (oracle `c3bad_env`) aborts the
round before phase 2. -/
theorem c3_subscription_intake_witness :
    _rcle_read_input_data c3_env demo_exec demo_ws 0 =
      (RCL_RET_SUBSCRIPTION_TAKE_FAILED, setAvail demo_exec 0 false) ∧
    _rcle_read_input_data demo_env demo_exec demo_ws 0 =
      (RCL_RET_OK, setAvail demo_exec 0 true) ∧
    ((_rcle_let_scheduling c3_env demo_exec demo_ws).exec.handles 0).data_available = false ∧
    (_rcle_let_scheduling c3_env demo_exec demo_ws).vis2 = [0, 1] ∧
    (_rcle_let_scheduling c3bad_env demo_exec demo_ws).rc = RCL_RET_ERROR ∧
    (_rcle_let_scheduling c3bad_env demo_exec demo_ws).vis2 = [] := by
  refine ⟨c3_subscription_intake.1 c3_env demo_exec demo_ws 0
            (by decide) (by decide) (by decide),
          c3_subscription_intake.2.1 demo_env demo_exec demo_ws 0
            (by decide) (by decide) (by decide),
          ?_, ?_, ?_, ?_⟩
  · exact (c3_subscription_intake.2.2.1 c3_env demo_exec demo_ws (by decide) (by decide)
      (by decide) (by decide) (by decide) 0 (by decide) (by decide) (by decide)).1
  · have h := (c3_subscription_intake.2.2.1 c3_env demo_exec demo_ws (by decide) (by decide)
      (by decide) (by decide) (by decide) 0 (by decide) (by decide) (by decide)).2.2
    rw [h]; decide
  · have h := (c3_subscription_intake.2.2.2 c3bad_env demo_exec demo_ws (by decide) (by decide)
      0 (by decide) (by decide) (by decide) (by decide) (by decide) (by decide)).1
    rw [h]; decide
  · exact (c3_subscription_intake.2.2.2 c3bad_env demo_exec demo_ws (by decide) (by decide)
      0 (by decide) (by decide) (by decide) (by decide) (by decide) (by decide)).2.1

/-- Claim C6: during phase 1, for a timer handle whose wait-set slot is
ready, the timer's own is_ready check is consulted: a confirmed expiry sets
`data_available` true; a denied expiry aborts the round with
`RCL_RET_ERROR`; a failing check aborts the round with that failure (any
failure code other than the subscription-specific transient sentinel, which
the timer contract never reports).  A timer whose slot is not ready keeps
`data_available` false. -/
theorem c6_timer_intake :
    (∀ (env : Env) (e : rcle_let_executor_t) (ws : rcl_wait_set_t) (i : Nat),
      (e.handles i).type = .TIMER →
      ws.timers.getD (e.handles i).index false = true →
      env.timer_ready_ret i = RCL_RET_OK →
      env.timer_ready_val i = true →
      _rcle_read_input_data env e ws i = (RCL_RET_OK, setAvail e i true)) ∧
    (∀ (env : Env) (e : rcle_let_executor_t) (ws : rcl_wait_set_t) (i : Nat),
      (e.handles i).type = .TIMER →
      ¬ ws.timers.getD (e.handles i).index false = true →
      _rcle_read_input_data env e ws i = (RCL_RET_OK, setAvail e i false)) ∧
    (∀ (env : Env) (e : rcle_let_executor_t) (ws : rcl_wait_set_t) (i : Nat),
      (e.handles i).type = .TIMER →
      ws.timers.getD (e.handles i).index false = true →
      env.timer_ready_ret i = RCL_RET_OK →
      env.timer_ready_val i = false →
      _rcle_read_input_data env e ws i = (RCL_RET_ERROR, setAvail e i false)) ∧
    (∀ (env : Env) (e : rcle_let_executor_t) (ws : rcl_wait_set_t) (i : Nat),
      (e.handles i).type = .TIMER →
      ws.timers.getD (e.handles i).index false = true →
      env.timer_ready_ret i ≠ RCL_RET_OK →
      _rcle_read_input_data env e ws i = (env.timer_ready_ret i, setAvail e i false)) ∧
    (∀ (env : Env) (e : rcle_let_executor_t) (ws : rcl_wait_set_t),
      e.index ≤ e.max_handles →
      (∀ j, j < e.max_handles → ((e.handles j).initialized = true ↔ j < e.index)) →
      ∀ i, i < e.index →
        (e.handles i).type = .TIMER →
        ws.timers.getD (e.handles i).index false = true →
        env.timer_ready_ret i = RCL_RET_OK →
        env.timer_ready_val i = false →
        (∀ k, k < i → intakeNonfatal env ws (e.handles k) k) →
        (_rcle_let_scheduling env e ws).rc = RCL_RET_ERROR ∧
        (_rcle_let_scheduling env e ws).vis2 = [] ∧
        (_rcle_let_scheduling env e ws).events = []) ∧
    (∀ (env : Env) (e : rcle_let_executor_t) (ws : rcl_wait_set_t),
      e.index ≤ e.max_handles →
      (∀ j, j < e.max_handles → ((e.handles j).initialized = true ↔ j < e.index)) →
      ∀ i, i < e.index →
        (e.handles i).type = .TIMER →
        ws.timers.getD (e.handles i).index false = true →
        env.timer_ready_ret i ≠ RCL_RET_OK →
        env.timer_ready_ret i ≠ RCL_RET_SUBSCRIPTION_TAKE_FAILED →
        (∀ k, k < i → intakeNonfatal env ws (e.handles k) k) →
        (_rcle_let_scheduling env e ws).rc = env.timer_ready_ret i ∧
        (_rcle_let_scheduling env e ws).vis2 = [] ∧
        (_rcle_let_scheduling env e ws).events = []) := by
  refine ⟨?_, ?_, ?_, ?_, ?_, ?_⟩
  · intro env e ws i hty hready hrr hval
    have hr : intakeResult env ws (e.handles i) i = (RCL_RET_OK, true) := by
      simp only [intakeResult, hty]
      rw [if_pos hready, hrr, if_neg (by simp), if_pos hval]
    simp [_rcle_read_input_data, hr]
  · intro env e ws i hty hready
    have hr : intakeResult env ws (e.handles i) i = (RCL_RET_OK, false) := by
      simp only [intakeResult, hty]
      rw [if_neg hready]
    simp [_rcle_read_input_data, hr]
  · intro env e ws i hty hready hrr hval
    have hr : intakeResult env ws (e.handles i) i = (RCL_RET_ERROR, false) := by
      simp only [intakeResult, hty]
      rw [if_pos hready, hrr, if_neg (by simp), if_neg (by simp [hval])]
    simp [_rcle_read_input_data, hr]
  · intro env e ws i hty hready hrr
    have hr : intakeResult env ws (e.handles i) i = (env.timer_ready_ret i, false) := by
      simp only [intakeResult, hty]
      rw [if_pos hready, if_pos hrr]
    simp [_rcle_read_input_data, hr]
  · intro env e ws hIdx hInit i hi hty hready hrr hval hpre
    have hr : intakeResult env ws (e.handles i) i = (RCL_RET_ERROR, false) := by
      simp only [intakeResult, hty]
      rw [if_pos hready, hrr, if_neg (by simp), if_neg (by simp [hval])]
    have habort := phase1_aux_abort env ws e hIdx hInit i hi
      (by rw [hr]; exact ⟨by decide, by decide⟩) e.max_handles 0 e RCL_RET_OK
      (by omega) (by omega) rfl (fun j _ => rfl) (fun j _ hj => hpre j hj)
    rw [scheduling_abort_eq env e ws habort.1]
    refine ⟨?_, rfl, rfl⟩
    show (phase1_aux env ws e RCL_RET_OK 0 e.max_handles).rc = RCL_RET_ERROR
    rw [habort.2, hr]
  · intro env e ws hIdx hInit i hi hty hready hrr hrrs hpre
    have hr : intakeResult env ws (e.handles i) i = (env.timer_ready_ret i, false) := by
      simp only [intakeResult, hty]
      rw [if_pos hready, if_pos hrr]
    have habort := phase1_aux_abort env ws e hIdx hInit i hi
      (by rw [hr]; exact ⟨hrr, hrrs⟩) e.max_handles 0 e RCL_RET_OK
      (by omega) (by omega) rfl (fun j _ => rfl) (fun j _ hj => hpre j hj)
    rw [scheduling_abort_eq env e ws habort.1]
    refine ⟨?_, rfl, rfl⟩
    show (phase1_aux env ws e RCL_RET_OK 0 e.max_handles).rc = env.timer_ready_ret i
    rw [habort.2, hr]

/-- Witness for C6 at the concrete executor (handle 1 is the timer): a
confirmed expiry sets its flag, an unsignalled slot leaves it clear, a
denied expiry aborts the round with `RCL_RET_ERROR`, and a failing ready
check aborts the round with that failure. -/
theorem c6_timer_intake_witness :
    _rcle_read_input_data demo_env demo_exec demo_ws 1 =
      (RCL_RET_OK, setAvail demo_exec 1 true) ∧
    _rcle_read_input_data demo_env demo_exec c6_ws 1 =
      (RCL_RET_OK, setAvail demo_exec 1 false) ∧
    _rcle_read_input_data c6_env demo_exec demo_ws 1 =
      (RCL_RET_ERROR, setAvail demo_exec 1 false) ∧
    (_rcle_let_scheduling c6_env demo_exec demo_ws).rc = RCL_RET_ERROR ∧
    (_rcle_let_scheduling c6_env demo_exec demo_ws).vis2 = [] ∧
    (_rcle_let_scheduling c6bad_env demo_exec demo_ws).rc = RCL_RET_ERROR ∧
    (_rcle_let_scheduling c6bad_env demo_exec demo_ws).events = [] := by
  refine ⟨c6_timer_intake.1 demo_env demo_exec demo_ws 1
            (by decide) (by decide) (by decide) (by decide),
          c6_timer_intake.2.1 demo_env demo_exec c6_ws 1
            (by decide) (by decide),
          c6_timer_intake.2.2.1 c6_env demo_exec demo_ws 1
            (by decide) (by decide) (by decide) (by decide),
          (c6_timer_intake.2.2.2.2.1 c6_env demo_exec demo_ws (by decide) (by decide)
            1 (by decide) (by decide) (by decide) (by decide) (by decide) (by decide)).1,
          (c6_timer_intake.2.2.2.2.1 c6_env demo_exec demo_ws (by decide) (by decide)
            1 (by decide) (by decide) (by decide) (by decide) (by decide) (by decide)).2.1,
          ?_, ?_⟩
  · have h := (c6_timer_intake.2.2.2.2.2 c6bad_env demo_exec demo_ws (by decide) (by decide)
      1 (by decide) (by decide) (by decide) (by decide) (by decide) (by decide)).1
    rw [h]; decide
  · exact (c6_timer_intake.2.2.2.2.2 c6bad_env demo_exec demo_ws (by decide) (by decide)
      1 (by decide) (by decide) (by decide) (by decide) (by decide) (by decide)).2.2

/-- Claim C4: when the handle table is full (`index = max_handles`), both
add operations fail with the capacity-exceeded error (`RCL_RET_ERROR` with
the buffer-overflow message) and mutate nothing; when `index < max_handles`
and all required arguments are present, they append the new handle at
position `index`, mark it initialized, increment the matching type count
and increment `index`. -/
theorem c4_capacity :
    (∀ (e : rcle_let_executor_t) (s m cb : Nat) (inv : rcle_invocation_t),
      e.index = e.max_handles →
      rcle_let_executor_add_subscription e (some s) (some m) (some cb) inv =
        (RCL_RET_ERROR, e)) ∧
    (∀ (e : rcle_let_executor_t) (tm : Nat),
      e.index = e.max_handles →
      rcle_let_executor_add_timer e (some tm) = (RCL_RET_ERROR, e)) ∧
    (∀ (e : rcle_let_executor_t) (s m cb : Nat) (inv : rcle_invocation_t),
      e.index < e.max_handles →
      (rcle_let_executor_add_subscription e (some s) (some m) (some cb) inv).1 =
        RCL_RET_OK ∧
      (rcle_let_executor_add_subscription e (some s) (some m) (some cb) inv).2.index =
        e.index + 1 ∧
      (rcle_let_executor_add_subscription e (some s) (some m) (some cb) inv).2.max_handles =
        e.max_handles ∧
      (rcle_let_executor_add_subscription e (some s) (some m) (some cb) inv).2.handles e.index =
        { e.handles e.index with
          type := .SUBSCRIPTION, subscription := s, data := m, callback := cb,
          invocation := inv, initialized := true } ∧
      (∀ j, j ≠ e.index →
        (rcle_let_executor_add_subscription e (some s) (some m) (some cb) inv).2.handles j =
          e.handles j) ∧
      (rcle_let_executor_add_subscription e (some s) (some m) (some cb) inv).2.info.number_of_subscriptions =
        e.info.number_of_subscriptions + 1 ∧
      (rcle_let_executor_add_subscription e (some s) (some m) (some cb) inv).2.info.number_of_timers =
        e.info.number_of_timers) ∧
    (∀ (e : rcle_let_executor_t) (tm : Nat),
      e.index < e.max_handles →
      (rcle_let_executor_add_timer e (some tm)).1 = RCL_RET_OK ∧
      (rcle_let_executor_add_timer e (some tm)).2.index = e.index + 1 ∧
      (rcle_let_executor_add_timer e (some tm)).2.max_handles = e.max_handles ∧
      (rcle_let_executor_add_timer e (some tm)).2.handles e.index =
        { e.handles e.index with
          type := .TIMER, timer := tm, invocation := .ON_NEW_DATA,
          initialized := true } ∧
      (∀ j, j ≠ e.index →
        (rcle_let_executor_add_timer e (some tm)).2.handles j = e.handles j) ∧
      (rcle_let_executor_add_timer e (some tm)).2.info.number_of_timers =
        e.info.number_of_timers + 1 ∧
      (rcle_let_executor_add_timer e (some tm)).2.info.number_of_subscriptions =
        e.info.number_of_subscriptions) := by
  refine ⟨?_, ?_, ?_, ?_⟩
  · intro e s m cb inv hfull
    exact add_subscription_full e s m cb inv (le_of_eq hfull.symm)
  · intro e tm hfull
    exact add_timer_full e tm (le_of_eq hfull.symm)
  · intro e s m cb inv hlt
    rw [add_subscription_ok e s m cb inv (by omega)]
    refine ⟨rfl, rfl, rfl, ?_, ?_, rfl, rfl⟩
    · show updFn e.handles e.index _ e.index = _
      rw [updFn_same]
    · intro j hj
      show updFn e.handles e.index _ j = e.handles j
      rw [updFn_ne _ _ _ j hj]
  · intro e tm hlt
    rw [add_timer_ok e tm (by omega)]
    refine ⟨rfl, rfl, rfl, ?_, ?_, rfl, rfl⟩
    · show updFn e.handles e.index _ e.index = _
      rw [updFn_same]
    · intro j hj
      show updFn e.handles e.index _ j = e.handles j
      rw [updFn_ne _ _ _ j hj]

/-- Witness for C4 at the concrete executor: the full table (capacity 2,
2 handles) rejects another subscription and another timer unchanged, and an
executor with one free slot accepts a timer at position `index`. -/
theorem c4_capacity_witness :
    rcle_let_executor_add_subscription demo_exec (some 11) (some 12) (some 13)
      .ON_NEW_DATA = (RCL_RET_ERROR, demo_exec) ∧
    rcle_let_executor_add_timer demo_exec (some 14) = (RCL_RET_ERROR, demo_exec) ∧
    (rcle_let_executor_add_timer { demo_exec with max_handles := 3 } (some 14)).1 =
      RCL_RET_OK ∧
    (rcle_let_executor_add_timer { demo_exec with max_handles := 3 } (some 14)).2.index = 3 ∧
    ((rcle_let_executor_add_timer { demo_exec with max_handles := 3 }
      (some 14)).2.handles 2).initialized = true := by
  refine ⟨c4_capacity.1 demo_exec 11 12 13 .ON_NEW_DATA (by decide),
          c4_capacity.2.1 demo_exec 14 (by decide), ?_, ?_, ?_⟩
  · exact (c4_capacity.2.2.2 { demo_exec with max_handles := 3 } 14 (by decide)).1
  · have h := (c4_capacity.2.2.2 { demo_exec with max_handles := 3 } 14 (by decide)).2.1
    rw [h]
    decide
  · have h0 := (c4_capacity.2.2.2 { demo_exec with max_handles := 3 } 14 (by decide)).2.2.2.1
    have h : (rcle_let_executor_add_timer { demo_exec with max_handles := 3 }
        (some 14)).2.handles 2 =
        { ({ demo_exec with max_handles := 3 } : rcle_let_executor_t).handles 2 with
          type := .TIMER, timer := 14, invocation := .ON_NEW_DATA,
          initialized := true } := h0
    rw [h]

/-- Claim C5: every successful add (subscription or timer) leaves the wait
set in the absent state, so the next `spin_some` rebuilds it and
re-registers every initialized handle before waiting: after the rebuild the
wait-set slot stored in each handle is the freshly assigned one (the count
of same-kind handles before it in the table), whatever slot was recorded
before. -/
theorem c5_add_invalidates_wait_set :
    (∀ (e : rcle_let_executor_t) (s m cb : Nat) (inv : rcle_invocation_t),
      (rcle_let_executor_add_subscription e (some s) (some m) (some cb) inv).1 =
        RCL_RET_OK →
      (rcle_let_executor_add_subscription e (some s) (some m) (some cb)
        inv).2.wait_set.valid = false) ∧
    (∀ (e : rcle_let_executor_t) (tm : Nat),
      (rcle_let_executor_add_timer e (some tm)).1 = RCL_RET_OK →
      (rcle_let_executor_add_timer e (some tm)).2.wait_set.valid = false) ∧
    (∀ (env : Env) (e : rcle_let_executor_t) (t : Nat),
      e.index ≤ e.max_handles →
      (∀ j, j < e.max_handles → ((e.handles j).initialized = true ↔ j < e.index)) →
      (∀ j, j < e.index → addRet env e j = RCL_RET_OK) →
      e.wait_set.valid = false →
      env.wait_set_init_ret = RCL_RET_OK →
      subsBefore e e.index ≤ e.info.number_of_subscriptions →
      timersBefore e e.index ≤ e.info.number_of_timers →
      (rcle_let_executor_spin_some env e t).exec.wait_set.valid = true ∧
      ∀ i, i < e.index →
        ((rcle_let_executor_spin_some env e t).exec.handles i).index = slotOf e i) := by
  refine ⟨?_, ?_, ?_⟩
  · intro e s m cb inv hok
    by_cases hcap : e.max_handles ≤ e.index
    · rw [add_subscription_full e s m cb inv hcap] at hok
      simp [RCL_RET_ERROR, RCL_RET_OK] at hok
    · rw [add_subscription_ok e s m cb inv hcap]
      show (if e.wait_set.valid = true then rcl_get_zero_initialized_wait_set
        else e.wait_set).valid = false
      by_cases hv : e.wait_set.valid = true
      · rw [if_pos hv]
        rfl
      · rw [if_neg hv]
        simp at hv
        exact hv
  · intro e tm hok
    by_cases hcap : e.max_handles ≤ e.index
    · rw [add_timer_full e tm hcap] at hok
      simp [RCL_RET_ERROR, RCL_RET_OK] at hok
    · rw [add_timer_ok e tm hcap]
      show (if e.wait_set.valid = true then rcl_get_zero_initialized_wait_set
        else e.wait_set).valid = false
      by_cases hv : e.wait_set.valid = true
      · rw [if_pos hv]
        rfl
      · rw [if_neg hv]
        simp at hv
        exact hv
  · intro env e t hIdx hInit hAdd hNV hBuild hCS hCT
    exact spin_some_build_run env e t hIdx hInit hAdd hNV hBuild hCS hCT

/-- Witness for C5: adding a timer to a one-slot-free executor leaves the
wait set absent, and the concrete `spin_some` that follows rebuilds it,
assigning slot 0 to the subscription (handle 0) and slot 0 to the timer
(handle 1). -/
theorem c5_add_invalidates_wait_set_witness :
    (rcle_let_executor_add_timer { demo_exec with max_handles := 3 }
      (some 14)).2.wait_set.valid = false ∧
    (rcle_let_executor_spin_some demo_env demo_exec 100).exec.wait_set.valid = true ∧
    ((rcle_let_executor_spin_some demo_env demo_exec 100).exec.handles 0).index = 0 ∧
    ((rcle_let_executor_spin_some demo_env demo_exec 100).exec.handles 1).index = 0 := by
  refine ⟨c5_add_invalidates_wait_set.2.1 { demo_exec with max_handles := 3 } 14 ?_, ?_, ?_, ?_⟩
  · exact (c4_capacity.2.2.2 { demo_exec with max_handles := 3 } 14 (by decide)).1
  · exact (c5_add_invalidates_wait_set.2.2 demo_env demo_exec 100 (by decide) (by decide)
      (by decide) (by decide) (by decide) (by decide) (by decide)).1
  · have h := (c5_add_invalidates_wait_set.2.2 demo_env demo_exec 100 (by decide) (by decide)
      (by decide) (by decide) (by decide) (by decide) (by decide)).2 0 (by decide)
    rw [h]; decide
  · have h := (c5_add_invalidates_wait_set.2.2 demo_env demo_exec 100 (by decide) (by decide)
      (by decide) (by decide) (by decide) (by decide) (by decide)).2 1 (by decide)
    rw [h]; decide

/-- Counterexample to claim C7 as stated: with a freshly built wait set and
a failing subscription registration, `spin_some` returns the provider error
but the executor's wait set is left VALID, not absent. -/
theorem c7_registration_failure_counterexample :
    (rcle_let_executor_spin_some c7_env demo_exec 100).rc = RCL_RET_ERROR ∧
    (rcle_let_executor_spin_some c7_env demo_exec 100).exec.wait_set.valid = true := by
  decide

/-- Claim C7 (amended): if wait-set construction fails, the error is
returned and the wait set is left absent; if the registration of a handle
into the freshly built wait set fails, the reported error is returned to
the caller — the wait set then remains in the valid state, but no
half-registered state is consulted later, because every spin_some that
reaches the wait clears the set and re-registers every initialized handle
from scratch (each handle's slot is freshly determined by the table
alone): this holds both when the previous round left the wait set absent
(conjunct 3, the rebuild path) and when it left it valid — in particular
the valid set a failed registration leaves behind (conjunct 4, the
skip-rebuild path). -/
theorem c7_amended_failure_paths :
    (∀ (env : Env) (e : rcle_let_executor_t) (t : Nat),
      e.wait_set.valid = false →
      env.wait_set_init_ret ≠ RCL_RET_OK →
      (rcle_let_executor_spin_some env e t).rc = env.wait_set_init_ret ∧
      (rcle_let_executor_spin_some env e t).exec.wait_set.valid = false) ∧
    (∀ (env : Env) (e : rcle_let_executor_t) (t : Nat),
      e.index ≤ e.max_handles →
      (∀ j, j < e.max_handles → ((e.handles j).initialized = true ↔ j < e.index)) →
      e.wait_set.valid = false →
      env.wait_set_init_ret = RCL_RET_OK →
      subsBefore e e.index ≤ e.info.number_of_subscriptions →
      timersBefore e e.index ≤ e.info.number_of_timers →
      ∀ js, js < e.index →
        (∀ j, j < js → addRet env e j = RCL_RET_OK) →
        addRet env e js ≠ RCL_RET_OK →
        (rcle_let_executor_spin_some env e t).rc = addRet env e js ∧
        (rcle_let_executor_spin_some env e t).exec.wait_set.valid = true) ∧
    (∀ (env : Env) (e : rcle_let_executor_t) (t : Nat),
      e.index ≤ e.max_handles →
      (∀ j, j < e.max_handles → ((e.handles j).initialized = true ↔ j < e.index)) →
      (∀ j, j < e.index → addRet env e j = RCL_RET_OK) →
      e.wait_set.valid = false →
      env.wait_set_init_ret = RCL_RET_OK →
      subsBefore e e.index ≤ e.info.number_of_subscriptions →
      timersBefore e e.index ≤ e.info.number_of_timers →
      ∀ i, i < e.index →
        ((rcle_let_executor_spin_some env e t).exec.handles i).index = slotOf e i) ∧
    (∀ (env : Env) (e : rcle_let_executor_t) (t : Nat),
      e.index ≤ e.max_handles →
      (∀ j, j < e.max_handles → ((e.handles j).initialized = true ↔ j < e.index)) →
      (∀ j, j < e.index → addRet env e j = RCL_RET_OK) →
      e.wait_set.valid = true →
      subsBefore e e.index ≤ e.wait_set.size_subscriptions →
      timersBefore e e.index ≤ e.wait_set.size_timers →
      (rcle_let_executor_spin_some env e t).exec.wait_set.valid = true ∧
      ∀ i, i < e.index →
        ((rcle_let_executor_spin_some env e t).exec.handles i).index = slotOf e i) := by
  refine ⟨?_, ?_, ?_, ?_⟩
  · intro env e t hNV hBad
    rw [spin_some_init_fail env e t hNV hBad]
    exact ⟨rfl, rfl⟩
  · intro env e t hIdx hInit hNV hBuild hCS hCT js hjs hAddPre hfail
    exact spin_some_build_regfail env e t hIdx hInit hNV hBuild hCS hCT js hjs hAddPre hfail
  · intro env e t hIdx hInit hAdd hNV hBuild hCS hCT
    exact (spin_some_build_run env e t hIdx hInit hAdd hNV hBuild hCS hCT).2
  · intro env e t hIdx hInit hAdd hV hCS hCT
    exact spin_some_valid_run env e t hIdx hInit hAdd hV hCS hCT

/-- Witness for the amended C7: a failing construction leaves the wait set
absent and surfaces the error; a failing registration surfaces the error
with the wait set still valid; a fully successful rebuild re-registers both
handles at freshly assigned slots; and the spin_some that follows the
failed registration — starting from the valid wait set that failure left —
clears it and re-registers both handles at freshly assigned slots too. -/
theorem c7_amended_failure_paths_witness :
    (rcle_let_executor_spin_some c9_env demo_exec 100).rc = RCL_RET_ERROR ∧
    (rcle_let_executor_spin_some c9_env demo_exec 100).exec.wait_set.valid = false ∧
    (rcle_let_executor_spin_some c7_env demo_exec 100).rc = addRet c7_env demo_exec 0 ∧
    (rcle_let_executor_spin_some c7_env demo_exec 100).exec.wait_set.valid = true ∧
    ((rcle_let_executor_spin_some demo_env demo_exec 100).exec.handles 1).index = 0 ∧
    (rcle_let_executor_spin_some demo_env
      (rcle_let_executor_spin_some c7_env demo_exec 100).exec 100).exec.wait_set.valid
      = true ∧
    ((rcle_let_executor_spin_some demo_env
      (rcle_let_executor_spin_some c7_env demo_exec 100).exec 100).exec.handles 1).index
      = 0 := by
  have ha := c7_amended_failure_paths.1 c9_env demo_exec 100 (by decide) (by decide)
  have hb := c7_amended_failure_paths.2.1 c7_env demo_exec 100 (by decide) (by decide)
    (by decide) (by decide) (by decide) (by decide) 0 (by decide)
    (by intro j hj; omega) (by decide)
  have hc := c7_amended_failure_paths.2.2.1 demo_env demo_exec 100 (by decide) (by decide)
    (by decide) (by decide) (by decide) (by decide) (by decide) 1 (by decide)
  have hd := c7_amended_failure_paths.2.2.2 demo_env
    (rcle_let_executor_spin_some c7_env demo_exec 100).exec 100 (by decide) (by decide)
    (by decide) (by decide) (by decide) (by decide)
  refine ⟨?_, ha.2, hb.1, hb.2, by rw [hc]; decide, hd.1, ?_⟩
  · rw [ha.1]
    decide
  · have h := hd.2 1 (by decide)
    rw [h]
    decide

/-! ### spin_one_period: case equations -/

lemma spin_one_period_latched (env : Env) (e : rcle_let_executor_t)
    (period : Nat) (hz : e.invocation_time = 0) :
    rcle_let_executor_spin_one_period env e period =
      spin_one_period_tail env { e with invocation_time := env.latch_time } period := by
  simp [rcle_let_executor_spin_one_period, spin_one_period_tail, hz]

lemma spin_one_period_unlatched (env : Env) (e : rcle_let_executor_t)
    (period : Nat) (hz : ¬ e.invocation_time = 0) :
    rcle_let_executor_spin_one_period env e period =
      spin_one_period_tail env e period := by
  simp [rcle_let_executor_spin_one_period, spin_one_period_tail, hz]

lemma spin_one_period_tail_rc (env : Env) (e0 : rcle_let_executor_t)
    (period : Nat) :
    (spin_one_period_tail env e0 period).rc =
      (rcle_let_executor_spin_some env e0 e0.timeout_ns).rc := by
  simp only [spin_one_period_tail]
  split <;> rfl

lemma spin_one_period_tail_ok (env : Env) (e0 : rcle_let_executor_t) (period : Nat)
    (hok : (rcle_let_executor_spin_some env e0 e0.timeout_ns).rc = RCL_RET_OK ∨
           (rcle_let_executor_spin_some env e0 e0.timeout_ns).rc = RCL_RET_TIMEOUT) :
    (spin_one_period_tail env e0 period).exec.invocation_time =
      e0.invocation_time + (period : Int) ∧
    (env.end_time < e0.invocation_time + (period : Int) →
      (spin_one_period_tail env e0 period).slept =
        some ((e0.invocation_time + (period : Int) - env.end_time) / 1000)) ∧
    (e0.invocation_time + (period : Int) ≤ env.end_time →
      (spin_one_period_tail env e0 period).slept = none) := by
  have htime := (spin_some_core env e0 e0.timeout_ns).time_eq
  simp only [spin_one_period_tail]
  rw [if_neg (not_not_intro hok), htime]
  refine ⟨rfl, ?_, ?_⟩
  · intro h1
    show (if 0 < e0.invocation_time + (period : Int) - env.end_time then
        some ((e0.invocation_time + (period : Int) - env.end_time) / 1000)
      else none) = some ((e0.invocation_time + (period : Int) - env.end_time) / 1000)
    rw [if_pos (by omega)]
  · intro h2
    show (if 0 < e0.invocation_time + (period : Int) - env.end_time then
        some ((e0.invocation_time + (period : Int) - env.end_time) / 1000)
      else none) = none
    rw [if_neg (by omega)]

/-- Counterexample to claim C9 as stated: when the inner `spin_some` fails
fatally (here: wait-set construction fails), `spin_one_period` returns the
error WITHOUT advancing `invocation_time` by the period — the advance is
not unconditional. -/
theorem c9_no_advance_on_error_counterexample :
    c9_exec.invocation_time = 5 ∧
    (rcle_let_executor_spin_one_period c9_env c9_exec 7).rc = RCL_RET_ERROR ∧
    (rcle_let_executor_spin_one_period c9_env c9_exec 7).exec.invocation_time ≠
      c9_exec.invocation_time + 7 := by
  decide

/-- Claim C9 (amended): every call to `spin_one_period` with period P whose
inner round finishes with success or timeout advances `invocation_time` by
exactly P (on the first call, `invocation_time` is first latched to the
current time); if the round finishes before the boundary
`invocation_time + P`, the call sleeps for the remaining time, and if the
round overruns no sleep occurs.  A call whose inner `spin_some` fails
fatally returns that error without advancing `invocation_time`. -/
theorem c9_amended_period_advance (env : Env) (e : rcle_let_executor_t)
    (period : Nat)
    (h : (rcle_let_executor_spin_one_period env e period).rc = RCL_RET_OK ∨
         (rcle_let_executor_spin_one_period env e period).rc = RCL_RET_TIMEOUT) :
    (rcle_let_executor_spin_one_period env e period).exec.invocation_time =
      (if e.invocation_time = 0 then env.latch_time else e.invocation_time) +
        (period : Int) ∧
    (env.end_time <
        (if e.invocation_time = 0 then env.latch_time else e.invocation_time) +
          (period : Int) →
      (rcle_let_executor_spin_one_period env e period).slept =
        some (((if e.invocation_time = 0 then env.latch_time else e.invocation_time) +
          (period : Int) - env.end_time) / 1000)) ∧
    ((if e.invocation_time = 0 then env.latch_time else e.invocation_time) +
        (period : Int) ≤ env.end_time →
      (rcle_let_executor_spin_one_period env e period).slept = none) := by
  by_cases hz : e.invocation_time = 0
  · rw [spin_one_period_latched env e period hz] at h ⊢
    rw [if_pos hz]
    rw [spin_one_period_tail_rc] at h
    have ht := spin_one_period_tail_ok env { e with invocation_time := env.latch_time }
      period h
    exact ⟨ht.1, ht.2.1, ht.2.2⟩
  · rw [spin_one_period_unlatched env e period hz] at h ⊢
    rw [if_neg hz]
    rw [spin_one_period_tail_rc] at h
    have ht := spin_one_period_tail_ok env e period h
    exact ⟨ht.1, ht.2.1, ht.2.2⟩

/-- Witness for the amended C9: at the concrete executor (already latched
to 5) with a successful round, a period of 2000 advances `invocation_time`
to 2005 and sleeps the remainder up to the boundary; a period of 7 (the
boundary 12 lies before the observed end time 1010) performs no sleep. -/
theorem c9_amended_period_advance_witness :
    (rcle_let_executor_spin_one_period demo_env c9_exec 2000).exec.invocation_time =
      2005 ∧
    (rcle_let_executor_spin_one_period demo_env c9_exec 2000).slept = some 0 ∧
    (rcle_let_executor_spin_one_period demo_env c9_exec 7).slept = none := by
  have h1 := c9_amended_period_advance demo_env c9_exec 2000 (by decide)
  have h2 := c9_amended_period_advance demo_env c9_exec 7 (by decide)
  refine ⟨?_, ?_, ?_⟩
  · rw [h1.1]
    decide
  · have := h1.2.1 (by decide)
    rw [this]
    decide
  · exact h2.2.2 (by decide)

/-- Claim C8 is right and the code is wrong: the source assigns the result
of `rcl_wait` to `rc` and immediately overwrites `rc` with the result of
`_rcle_let_scheduling`, so a fatal wait error is silently swallowed.  At a
concrete executor whose bounded wait fails with `RCL_RET_ERROR`,
`spin_some` still returns `RCL_RET_OK` and even runs the round's callbacks
as if the wait had succeeded. -/
theorem c8_wait_error_swallowed :
    c8_env.wait_ret = RCL_RET_ERROR ∧
    (rcle_let_executor_spin_some c8_env demo_exec 100).rc = RCL_RET_OK ∧
    (rcle_let_executor_spin_some c8_env demo_exec 100).events =
      [Event.subCallback 0 9 7, Event.timerCall 1 4] := by
  decide

/-- Claim C10: `add_timer` accepts no policy argument and always stores the
`ON_NEW_DATA` policy, so after any sequence of executor operations starting
from `init`, every timer handle carries `ON_NEW_DATA`; consequently, in any
scheduling round, a timer handle with policy `ON_NEW_DATA` has its call
primitive invoked only if its wait-set slot was signalled ready and its
expiry was confirmed by the timer-ready check during that round's intake
phase. -/
theorem c10_timer_policy :
    (∀ (n : Nat) (ops : List Op),
      timersOnNewData (applyOps
        (rcle_let_executor_init rcle_let_executor_get_zero_initialized_executor n).2
        ops)) ∧
    (∀ (env : Env) (e : rcle_let_executor_t) (ws : rcl_wait_set_t) (i t : Nat),
      e.index ≤ e.max_handles →
      (∀ j, j < e.max_handles → ((e.handles j).initialized = true ↔ j < e.index)) →
      (e.handles i).invocation = .ON_NEW_DATA →
      Event.timerCall i t ∈ (_rcle_let_scheduling env e ws).events →
      ws.timers.getD (e.handles i).index false = true ∧
      env.timer_ready_val i = true) := by
  constructor
  · intro n ops
    refine timersOnNewData_applyOps _ ops ?_
    intro j hj
    by_cases hn : n = 0 <;>
      simp [rcle_let_executor_init, rcle_let_executor_get_zero_initialized_executor,
        rcle_handle_init, hn] at hj
  · intro env e ws i t hIdx hInit hinv hmem
    by_cases hearly : (phase1_aux env ws e RCL_RET_OK 0 e.max_handles).early = true
    · rw [scheduling_abort_eq env e ws hearly] at hmem
      simp at hmem
    · have hef : (phase1_aux env ws e RCL_RET_OK 0 e.max_handles).early = false := by
        revert hearly
        cases (phase1_aux env ws e RCL_RET_OK 0 e.max_handles).early <;> simp
      rw [scheduling_run_eq env e ws hef] at hmem
      have hc := phase1_aux_core env ws e.max_handles 0 e RCL_RET_OK
      obtain ⟨j, hj0, hjm, hjini, hjev⟩ := phase2_aux_events_mem env
        (phase1_aux env ws e RCL_RET_OK 0 e.max_handles).exec
        (phase1_aux env ws e RCL_RET_OK 0 e.max_handles).exec.max_handles 0
        (phase1_aux env ws e RCL_RET_OK 0 e.max_handles).rc
        (Event.timerCall i t) hmem
      obtain ⟨hij, hjty, hjinv⟩ := execOne_timerCall_mem env _ j i t hjev
      subst hij
      have him : i < e.max_handles := by rw [← hc.max_eq]; exact hjm
      have hii : i < e.index :=
        (hInit i him).mp (by rw [← hc.init_eq i]; exact hjini)
      have hcomp := phase1_aux_complete env ws e.max_handles 0 e RCL_RET_OK i hef
        (by omega) (by omega) him
        (fun k _ hk => (hInit k (by omega)).mpr (by omega))
      have hinv1 : ((phase1_aux env ws e RCL_RET_OK 0 e.max_handles).exec.handles i).invocation =
          .ON_NEW_DATA := by
        rw [hc.invocation_eq i]
        exact hinv
      have hav : ((phase1_aux env ws e RCL_RET_OK 0 e.max_handles).exec.handles i).data_available =
          true := by
        rw [invokeFlag_eq_spec] at hjinv
        simp [spec_should_invoke, hinv1] at hjinv
        exact hjinv
      have hav2 : (intakeResult env ws (e.handles i) i).2 = true := by
        rw [hcomp] at hav
        simpa using hav
      have hty : (e.handles i).type = .TIMER := by
        rw [← hc.type_eq i]
        exact hjty
      by_cases hready : ws.timers.getD (e.handles i).index false = true
      · refine ⟨hready, ?_⟩
        by_cases hrr : env.timer_ready_ret i = RCL_RET_OK
        · by_cases hval : env.timer_ready_val i = true
          · exact hval
          · exfalso
            simp only [intakeResult, hty] at hav2
            rw [if_pos hready, hrr, if_neg (by simp),
              if_neg (by simpa using hval)] at hav2
            simp at hav2
        · exfalso
          simp only [intakeResult, hty] at hav2
          rw [if_pos hready, if_pos hrr] at hav2
          simp at hav2
      · exfalso
        simp only [intakeResult, hty] at hav2
        rw [if_neg hready] at hav2
        simp at hav2

/-- Witness for C10: after initializing with capacity 2 and adding one
subscription and one timer, every timer handle has policy ON_NEW_DATA; and
at the concrete round where the timer (handle 1) is invoked, its slot was
signalled ready and its expiry confirmed. -/
theorem c10_timer_policy_witness :
    timersOnNewData (applyOps
      (rcle_let_executor_init rcle_let_executor_get_zero_initialized_executor 2).2
      [Op.addSubscription (some 5) (some 7) (some 9) .ON_NEW_DATA,
       Op.addTimer (some 4)]) ∧
    (demo_ws.timers.getD (demo_exec.handles 1).index false = true ∧
     demo_env.timer_ready_val 1 = true) := by
  refine ⟨c10_timer_policy.1 2 _, ?_⟩
  exact c10_timer_policy.2 demo_env demo_exec demo_ws 1 4
    (by decide) (by decide) (by decide) (by decide)
